import Mathlib

/-!
# GPUPerfStudio DX12 server: object database and interceptor

A shallow embedding of

* `Server/DX12Server/Objects/DX12WrappedObjectDatabase.cpp`
* `Server/DX12Server/Objects/DX12ObjectDatabaseProcessor.h` (`GenericWrapObject`)
* `Server/DX12Server/Interception/DX12Interceptor.cpp` (sample-id counter, `PreCall` and
  `PostCall`, installing and removing the hooks, the hooked entry points)
* `Server/Common/MapDeltaOptimization/mdoStats.cpp` (`TrackAlloc`, `TrackFree`)

Pointers are natural numbers (`NULL` is `0`).  The metadata objects the two
maps point to live in an explicit heap, so that "the same metadata record"
means "the same address", as it does in the C++.  The addresses that
`new` hands out are inputs of the functions that allocate.  Locks
(`ScopeLock`) and logging have no effect on a single thread and are left out.
-/

namespace GPUPerfStudio

/-! ## Data model -/

/-- An interface pointer (`IUnknown*`): a real runtime instance or a wrapper. -/
abbrev IUnknownPtr := Nat

/-- The address of a heap-allocated `IDX12InstanceBase` (`IDX12InstanceBase*`). -/
abbrev MetadataPtr := Nat

/-- The `eObjectType` enumeration, by ordinal. -/
abbrev eObjectType := Nat

/-- The null pointer. -/
def NULL : Nat := 0

/-- Modelled from the spec: the class `IDX12InstanceBase` (`IDX12InstanceBase.h` is
not among the sources).  Its fields follow the spec's WrapperMetadata
(`realHandle`, `wrapperHandle`, `objectType`, `parentDevice`, `creationInfo`,
`destroyed`) and the constructor call in `GenericWrapObject`. -/
structure IDX12InstanceBase where
  mRuntimeInstance : IUnknownPtr
  mApplicationHandle : IUnknownPtr
  mObjectType : eObjectType
  mCreateInfo : Nat
  mParentDevice : Nat
  mbDestroyed : Bool
deriving DecidableEq

/-- Modelled from the spec: the constructor
`IDX12InstanceBase(real, wrapper, type, createInfo)`; a new record has no parent
device yet and is not destroyed. -/
def IDX12InstanceBase.create (inRealInstance inWrapperInstance : IUnknownPtr)
    (inObjectType : eObjectType) (inCreateInfo : Nat) : IDX12InstanceBase :=
  { mRuntimeInstance := inRealInstance
    mApplicationHandle := inWrapperInstance
    mObjectType := inObjectType
    mCreateInfo := inCreateInfo
    mParentDevice := NULL
    mbDestroyed := false }

/-- Modelled from the spec: getter of the real (runtime) handle. -/
def IDX12InstanceBase.GetRuntimeInstance (m : IDX12InstanceBase) : IUnknownPtr :=
  m.mRuntimeInstance

/-- Modelled from the spec: getter of the wrapper handle given to the application. -/
def IDX12InstanceBase.GetApplicationHandle (m : IDX12InstanceBase) : IUnknownPtr :=
  m.mApplicationHandle

/-- Modelled from the spec: getter of the object type tag. -/
def IDX12InstanceBase.GetObjectType (m : IDX12InstanceBase) : eObjectType :=
  m.mObjectType

/-- Modelled from the spec: getter of the `destroyed` flag. -/
def IDX12InstanceBase.IsDestroyed (m : IDX12InstanceBase) : Bool :=
  m.mbDestroyed

/-- Modelled from the spec: setter of the parent-device back-reference; the
handles of the record are not touched. -/
def IDX12InstanceBase.SetParentDeviceHandle (m : IDX12InstanceBase) (inParentDevice : Nat) :
    IDX12InstanceBase :=
  { m with mParentDevice := inParentDevice }

/-- The heap of metadata objects: what each `IDX12InstanceBase*` points to. -/
abbrev Heap := MetadataPtr → IDX12InstanceBase

/-- Write a record at an address of the heap. -/
def Heap.store (heap : Heap) (p : MetadataPtr) (m : IDX12InstanceBase) : Heap :=
  fun q => if q = p then m else heap q

/-- The heap in which every address holds a zeroed record. -/
def Heap.zero : Heap :=
  fun _ => IDX12InstanceBase.create NULL NULL 0 0

/-! ## Associative containers

The containers (`DXInterfaceToWrapperMetadata`, `ThreadIdToSampleIdMap`,
`CommandListToSampleCountMap`) are key-unique maps; their typedefs are in
headers that are not among the sources.  A map is a list of entries with
distinct keys; no property below depends on the order of iteration. -/

/-- The call `m.find(key)`: the value stored under `key`, `none` for `m.end()`. -/
def mapFind {β : Type} : List (Nat × β) → Nat → Option β
  | [], _ => none
  | (k, v) :: rest, key => if k = key then some v else mapFind rest key

/-- The assignment `m[key] = value`: replaces the value of an existing entry, adds an
entry otherwise. -/
def mapAssign {β : Type} : List (Nat × β) → Nat → β → List (Nat × β)
  | [], key, value => [(key, value)]
  | (k, v) :: rest, key, value =>
      if k = key then (key, value) :: rest else (k, v) :: mapAssign rest key value

/-- The subscript `m[key]` used to obtain a reference: adds an entry holding `dflt` when
`key` is not yet a key. -/
def mapSubscript {β : Type} (m : List (Nat × β)) (key : Nat) (dflt : β) : List (Nat × β) :=
  match mapFind m key with
  | some _ => m
  | none => mapAssign m key dflt

/-- A write through a reference to the entry of `key`: the value is replaced by `f` of
it. -/
def mapModify {β : Type} : List (Nat × β) → Nat → (β → β) → List (Nat × β)
  | [], _, _ => []
  | (k, v) :: rest, key, f =>
      if k = key then (k, f v) :: rest else (k, v) :: mapModify rest key f

/-- A write through a pointer to the element at position `i` of a list. -/
def listModify {α : Type} : List α → Nat → (α → α) → List α
  | [], _, _ => []
  | a :: rest, 0, f => f a :: rest
  | a :: rest, i + 1, f => a :: listModify rest i f

/-- Whether `key` is a key of the map (`m.find(key) != m.end()`). -/
def mapContains {β : Type} (m : List (Nat × β)) (key : Nat) : Bool :=
  (mapFind m key).isSome

/-- The type of both maps of the database, from interface pointer to metadata. -/
abbrev DXInterfaceToWrapperMetadata := List (IUnknownPtr × MetadataPtr)

/-- The output vector of `GetObjectsByType`. -/
abbrev WrappedInstanceVector := List MetadataPtr

/-- The two maps of `DX12WrappedObjectDatabase`. -/
structure DX12WrappedObjectDatabase where
  mWrapperInstanceToWrapperMetadata : DXInterfaceToWrapperMetadata
  mRealInstanceToWrapperMetadata : DXInterfaceToWrapperMetadata
deriving DecidableEq

namespace DX12WrappedObjectDatabase

/-- The default constructor: both maps empty. -/
def empty : DX12WrappedObjectDatabase :=
  { mWrapperInstanceToWrapperMetadata := []
    mRealInstanceToWrapperMetadata := [] }

/-- One iteration of the loop of `GetObjectsByType`. -/
def GetObjectsByType_step (heap : Heap) (inObjectType : eObjectType)
    (inbOnlyCurrentObjects : Bool) (out : WrappedInstanceVector)
    (wrapperIter : IUnknownPtr × MetadataPtr) : WrappedInstanceVector :=
  let wrapperMetadata := wrapperIter.2
  if (heap wrapperMetadata).GetObjectType = inObjectType then
    if inbOnlyCurrentObjects && (heap wrapperMetadata).IsDestroyed then
      out
    else
      out ++ [wrapperMetadata]
  else
    out

/-- `GetObjectsByType` (a `const` method): loops over the wrapper map and pushes the
matching metadata pointers onto the output vector, which is returned. -/
def GetObjectsByType (db : DX12WrappedObjectDatabase) (heap : Heap)
    (inObjectType : eObjectType) (outObjectInstancesOfGivenType : WrappedInstanceVector)
    (inbOnlyCurrentObjects : Bool) : WrappedInstanceVector :=
  db.mWrapperInstanceToWrapperMetadata.foldl
    (GetObjectsByType_step heap inObjectType inbOnlyCurrentObjects)
    outObjectInstancesOfGivenType

/-- `GetWrappedInstance` (a `const` method): looks the handle up in the real map, then
in the wrapper map; `NULL` when it is in neither. -/
def GetWrappedInstance (db : DX12WrappedObjectDatabase) (inInstanceHandle : IUnknownPtr) :
    MetadataPtr :=
  let wrappedInstance := inInstanceHandle
  match mapFind db.mRealInstanceToWrapperMetadata wrappedInstance with
  | some interfaceIter => interfaceIter
  | none =>
    match mapFind db.mWrapperInstanceToWrapperMetadata wrappedInstance with
    | some wrapperInterfaceIter => wrapperInterfaceIter
    | none => NULL

/-- The result of `AttemptUnwrap`: the returned flag, the in/out pointer, and the
database after the call. -/
structure UnwrapResult where
  bUnwrappedInstance : Bool
  ioPossiblyWrapperInstance : IUnknownPtr
  db : DX12WrappedObjectDatabase
deriving DecidableEq

/-- `AttemptUnwrap`: when the pointer is a key of the wrapper map it is replaced by the
runtime instance of its metadata and the result is `true`; otherwise a warning is logged
and the result is `false`. -/
def AttemptUnwrap (db : DX12WrappedObjectDatabase) (heap : Heap)
    (ioPossiblyWrapperInstance : IUnknownPtr) : UnwrapResult :=
  let possibleReal := ioPossiblyWrapperInstance
  match mapFind db.mWrapperInstanceToWrapperMetadata possibleReal with
  | some wrapperMetadata =>
    { bUnwrappedInstance := true
      ioPossiblyWrapperInstance := (heap wrapperMetadata).GetRuntimeInstance
      db := db }
  | none =>
    { bUnwrappedInstance := false
      ioPossiblyWrapperInstance := ioPossiblyWrapperInstance
      db := db }

/-- `Add`: stores the metadata pointer under its application handle in the wrapper map
and under its runtime instance in the real map. -/
def Add (db : DX12WrappedObjectDatabase) (heap : Heap) (inWrapperMetadata : MetadataPtr) :
    DX12WrappedObjectDatabase :=
  let wrapperHandle := (heap inWrapperMetadata).GetApplicationHandle
  let runtimeInstance := (heap inWrapperMetadata).GetRuntimeInstance
  { mWrapperInstanceToWrapperMetadata :=
      mapAssign db.mWrapperInstanceToWrapperMetadata wrapperHandle inWrapperMetadata
    mRealInstanceToWrapperMetadata :=
      mapAssign db.mRealInstanceToWrapperMetadata runtimeInstance inWrapperMetadata }

/-- `GetMetadataObject`: the metadata stored under the wrapper, `NULL` when the handle is
not a key of the wrapper map.  The second component is the database after the call. -/
def GetMetadataObject (db : DX12WrappedObjectDatabase) (inWrapperInstance : IUnknownPtr) :
    MetadataPtr × DX12WrappedObjectDatabase :=
  let resultInstance := NULL
  match mapFind db.mWrapperInstanceToWrapperMetadata inWrapperInstance with
  | some objectIter => (objectIter, db)
  | none => (resultInstance, db)

/-- `WrappedObject` (a `const` method): `false` with the pointer untouched when the
handle is not a key of the real map; otherwise `true` with the pointer reassigned to the
application handle of the metadata. -/
def WrappedObject (db : DX12WrappedObjectDatabase) (heap : Heap) (ioInstance : IUnknownPtr) :
    Bool × IUnknownPtr :=
  let pReal := ioInstance
  match mapFind db.mRealInstanceToWrapperMetadata pReal with
  | none => (false, ioInstance)
  | some objectIter =>
    let wrapperMetaData := objectIter
    (true, (heap wrapperMetaData).GetApplicationHandle)

end DX12WrappedObjectDatabase

/-- What `GenericWrapObject` leaves behind: the returned flag, the in/out pointer
`*ppReal`, the heap and the database. -/
structure WrapResult where
  result : Bool
  ppReal : IUnknownPtr
  heap : Heap
  db : DX12WrappedObjectDatabase

/-- `GenericWrapObject`.  `pWrapper` is the address `new U(*ppReal)` returns and
`objectData` the address `new IDX12InstanceBase(...)` returns; neither allocation
happens when the object is already in the database. -/
def GenericWrapObject (pWrapper : IUnknownPtr) (objectData : MetadataPtr)
    (heap : Heap) (objectDatabase : DX12WrappedObjectDatabase)
    (inParentDevice : Nat) (ppReal : IUnknownPtr) (inObjectType : eObjectType)
    (inCreateInfo : Nat) : WrapResult :=
  match objectDatabase.WrappedObject heap ppReal with
  | (true, ppRealOut) =>
    { result := false, ppReal := ppRealOut, heap := heap, db := objectDatabase }
  | (false, ppRealSame) =>
    let heapNew := heap.store objectData
      (IDX12InstanceBase.create ppRealSame pWrapper inObjectType inCreateInfo)
    let dbAdded := objectDatabase.Add heapNew objectData
    let heapSet := heapNew.store objectData
      ((heapNew objectData).SetParentDeviceHandle inParentDevice)
    { result := true, ppReal := pWrapper, heap := heapSet, db := dbAdded }

/-! ## Sequences of calls on the database -/

/-- The arguments of one `GenericWrapObject` call, with the two addresses its
allocations would return. -/
structure WrapCall where
  pWrapper : IUnknownPtr
  objectData : MetadataPtr
  inParentDevice : Nat
  ppReal : IUnknownPtr
  inObjectType : eObjectType
  inCreateInfo : Nat
deriving DecidableEq

/-- The heap and database a `GenericWrapObject` call leaves behind. -/
def wrapStep (state : Heap × DX12WrappedObjectDatabase) (c : WrapCall) :
    Heap × DX12WrappedObjectDatabase :=
  let r := GenericWrapObject c.pWrapper c.objectData state.1 state.2
    c.inParentDevice c.ppReal c.inObjectType c.inCreateInfo
  (r.heap, r.db)

/-- A sequence of `GenericWrapObject` calls, from a newly constructed database. -/
def wrapAll (heap : Heap) (calls : List WrapCall) : Heap × DX12WrappedObjectDatabase :=
  calls.foldl wrapStep (heap, DX12WrappedObjectDatabase.empty)

/-- A sequence of `Add` calls, from a newly constructed database. -/
def addAll (heap : Heap) (records : List MetadataPtr) : DX12WrappedObjectDatabase :=
  records.foldl (fun db p => db.Add heap p) DX12WrappedObjectDatabase.empty

/-- The records a map refers to. -/
def mapValues (m : DXInterfaceToWrapperMetadata) : List MetadataPtr :=
  m.map Prod.snd

/-- The entries of a map that refer to the record `p`. -/
def entriesOf (m : DXInterfaceToWrapperMetadata) (p : MetadataPtr) :
    DXInterfaceToWrapperMetadata :=
  m.filter (fun e => decide (e.2 = p))

/-- The database in which the real object `1` has been wrapped as `10`, with its
metadata at address `100`. -/
def oneObject : WrapResult :=
  GenericWrapObject 10 100 Heap.zero DX12WrappedObjectDatabase.empty 0 1 0 0

/-- The keys of a map are pairwise distinct. -/
def KeysDistinct {β : Type} (m : List (Nat × β)) : Prop :=
  (m.map Prod.fst).Nodup

/-- What holds of a database built by `Add` calls on `records`: keys are distinct, and
every entry of the wrapper map is stored under the application handle of its record,
every entry of the real map under the runtime instance of its record. -/
def AddInvariant (heap : Heap) (records : List MetadataPtr)
    (db : DX12WrappedObjectDatabase) : Prop :=
  KeysDistinct db.mWrapperInstanceToWrapperMetadata ∧
  KeysDistinct db.mRealInstanceToWrapperMetadata ∧
  (∀ k p, mapFind db.mWrapperInstanceToWrapperMetadata k = some p →
    p ∈ records ∧ (heap p).mApplicationHandle = k) ∧
  (∀ k p, mapFind db.mRealInstanceToWrapperMetadata k = some p →
    p ∈ records ∧ (heap p).mRuntimeInstance = k)

/-- Every record of one map is found in the other map under its other handle. -/
def MapsAgree (heap : Heap) (db : DX12WrappedObjectDatabase) : Prop :=
  (∀ k p, mapFind db.mWrapperInstanceToWrapperMetadata k = some p →
    mapFind db.mRealInstanceToWrapperMetadata (heap p).mRuntimeInstance = some p) ∧
  (∀ k p, mapFind db.mRealInstanceToWrapperMetadata k = some p →
    mapFind db.mWrapperInstanceToWrapperMetadata (heap p).mApplicationHandle = some p)

/-- The test of the loop body of `GetObjectsByType` on one entry. -/
def isRequested (heap : Heap) (inObjectType : eObjectType) (inbOnlyCurrentObjects : Bool)
    (e : IUnknownPtr × MetadataPtr) : Bool :=
  decide ((heap e.2).mObjectType = inObjectType) &&
    !(inbOnlyCurrentObjects && (heap e.2).mbDestroyed)

/-- A heap with two records that share the runtime instance `1`: at `100` the record
of wrapper `10`, at `101` the record of wrapper `11`. -/
def sharedRealHeap : Heap :=
  (Heap.zero.store 100 (IDX12InstanceBase.create 1 10 0 0)).store 101
    (IDX12InstanceBase.create 1 11 0 0)

/-- A heap with two records that share no handle: at `100` the record of the real
object `1` wrapped as `10`, at `200` the record of the real object `2` wrapped as `20`. -/
def distinctHeap : Heap :=
  (Heap.zero.store 100 (IDX12InstanceBase.create 1 10 0 0)).store 200
    (IDX12InstanceBase.create 2 20 0 0)

/-- What holds after a sequence of `GenericWrapObject` calls whose metadata addresses are
`seen`: every entry of the wrapper map refers to one of these addresses, and its record
is found in the real map under its runtime instance. -/
def WrapInvariant (state : Heap × DX12WrappedObjectDatabase) (seen : List MetadataPtr) :
    Prop :=
  ∀ k p, mapFind state.2.mWrapperInstanceToWrapperMetadata k = some p →
    p ∈ seen ∧
    mapFind state.2.mRealInstanceToWrapperMetadata (state.1 p).mRuntimeInstance = some p

/-- Two registrations: the real object `1` wrapped as `10` (metadata at `100`), then the
real object `2` wrapped as `20` (metadata at `200`). -/
def twoCalls : List WrapCall :=
  [ { pWrapper := 10, objectData := 100, inParentDevice := 0, ppReal := 1,
      inObjectType := 0, inCreateInfo := 0 },
    { pWrapper := 20, objectData := 200, inParentDevice := 0, ppReal := 2,
      inObjectType := 0, inCreateInfo := 0 } ]

/-! ## The sample-id counter of `DX12Interceptor` -/

/-- The constant `FIRST_SAMPLE_ID` (a `uint64`). -/
def FIRST_SAMPLE_ID : Nat := 0

/-- Modelled from the spec: the number of values of the member `mSampleIndex`, whose
declaration is in `DX12Interceptor.h`, not among the sources.  The spec calls the sample
id a "64-bit value", and the member is initialised from the `uint64` constant
`FIRST_SAMPLE_ID`.  (Were the member a `gpa_uint32`, `GetNextSampleId` would return the
same values: it returns the counter as a `gpa_uint32` in either case.) -/
def SAMPLE_INDEX_RANGE : Nat := 2 ^ 64

/-- The number of values of a `gpa_uint32`, the return type of `GetNextSampleId`. -/
def GPA_UINT32_RANGE : Nat := 2 ^ 32

/-- A function id (`FuncId`), by ordinal. -/
abbrev FuncId := Nat

/-- A status returned by the timing backend (`GPA_Status`), by numeric code. -/
abbrev GPA_Status := Nat

/-- The success status `GPA_STATUS_OK`; every other value is a failure. -/
def GPA_STATUS_OK : GPA_Status := 0

/-- A call made through `mGPALoader`, with the status the backend returned. -/
inductive GPACall where
  | GPA_SelectContext (inCurrentContext : Nat) (status : GPA_Status)
  | GPA_BeginSample (sampleId : Nat) (status : GPA_Status)
  | GPA_EndSample (status : GPA_Status)
deriving DecidableEq

/-- The entry of `mSampleIdMap` of a thread. -/
structure SampleInfo where
  mSampleId : Nat
  mbBeginSampleSuccessful : Bool
deriving DecidableEq

/-- The members of `DX12Interceptor` that the sample-id functions and the call
instrumentation read or write.  `mGPAPrePostMatcherMutex` is the number of `Lock` calls
not yet matched by an `Unlock`; `mGPALoader` is the sequence of calls made through the
loader so far. -/
structure DX12Interceptor where
  mbCollectApiTrace : Bool
  mbProfilerEnabled : Bool
  mSampleIndex : Nat
  mRealD3D12 : Nat
  mSampleIdMap : List (Nat × SampleInfo)
  mSamplesPerCommandList : List (Nat × Nat)
  mGPAPrePostMatcherMutex : Nat
  mGPALoader : List GPACall
deriving DecidableEq

namespace DX12Interceptor

/-- The constructor. -/
def create : DX12Interceptor :=
  { mbCollectApiTrace := false
    mbProfilerEnabled := false
    mSampleIndex := FIRST_SAMPLE_ID
    mRealD3D12 := NULL
    mSampleIdMap := []
    mSamplesPerCommandList := []
    mGPAPrePostMatcherMutex := 0
    mGPALoader := [] }

/-- `GetNextSampleId`: increments `mSampleIndex` and returns it as a `gpa_uint32`. -/
def GetNextSampleId (self : DX12Interceptor) : Nat × DX12Interceptor :=
  let incremented := { self with mSampleIndex := (self.mSampleIndex + 1) % SAMPLE_INDEX_RANGE }
  (incremented.mSampleIndex % GPA_UINT32_RANGE, incremented)

/-- `ResetSampleIdCounter`: sets the counter back to `FIRST_SAMPLE_ID` and clears the
two per-frame maps. -/
def ResetSampleIdCounter (self : DX12Interceptor) : DX12Interceptor :=
  { self with
    mSampleIndex := FIRST_SAMPLE_ID
    mSampleIdMap := []
    mSamplesPerCommandList := [] }

/-- The interceptor after `n` calls of `GetNextSampleId` on `self`. -/
def afterCalls (self : DX12Interceptor) : Nat → DX12Interceptor
  | 0 => self
  | n + 1 => ((afterCalls self n).GetNextSampleId).2

/-- The sample id that `GetNextSampleId` returns after `n` earlier calls on `self`. -/
def returnedAfter (self : DX12Interceptor) (n : Nat) : Nat :=
  ((afterCalls self n).GetNextSampleId).1

end DX12Interceptor

/-! ## Call instrumentation: `PreCall` and `PostCall`

The bodies below are those of the `USE_GPA_PROFILING` build.  The thread id that
`osGetCurrentThreadId` returns, the member `mRealGraphicsCommandList` of the wrapper that
`inWrappedInterface` points to, and the statuses the timing backend returns are inputs. -/

/-- Modelled from the spec: the trace record `DX12APIEntry` that `LogAPICall` creates
(its header is not among the sources): function id, stringified arguments, return value,
an optional sample id (`sampleId?`, absent until `PostCall` assigns it) and whether a
timing result has been stored for it. -/
structure DX12APIEntry where
  mWrappedInterface : IUnknownPtr
  mFunctionId : FuncId
  mArgumentString : String
  mReturnValue : Int
  mSampleId : Option Nat
  mbProfilerResultStored : Bool
deriving DecidableEq

/-- Modelled from the spec: the state of the singleton `DX12TraceAnalyzerLayer` (the
trace sink; not among the sources) that `PreCall` and `PostCall` use: the allow-list of
profiled function ids, the logged records, the samples attributed to command lists, and
the number of `BeforeAPICall` notifications. -/
structure DX12TraceAnalyzerLayer where
  mProfiledFunctions : List FuncId
  mLoggedCalls : List DX12APIEntry
  mCommandListSamples : List (Nat × Nat)
  mBeforeAPICallCount : Nat
deriving DecidableEq

namespace DX12TraceAnalyzerLayer

/-- Modelled from the spec: `ShouldProfileFunction`, the per-function-id allow-list. -/
def ShouldProfileFunction (self : DX12TraceAnalyzerLayer) (inFunctionId : FuncId) : Bool :=
  decide (inFunctionId ∈ self.mProfiledFunctions)

/-- Modelled from the spec: `BeforeAPICall`, notified at the end of every `PreCall`. -/
def BeforeAPICall (self : DX12TraceAnalyzerLayer) : DX12TraceAnalyzerLayer :=
  { self with mBeforeAPICallCount := self.mBeforeAPICallCount + 1 }

/-- Modelled from the spec: `AddSampleToCommandList`. -/
def AddSampleToCommandList (self : DX12TraceAnalyzerLayer) (inCommandList sampleId : Nat) :
    DX12TraceAnalyzerLayer :=
  { self with mCommandListSamples := self.mCommandListSamples ++ [(inCommandList, sampleId)] }

/-- Modelled from the spec: `LogAPICall` (`logCall`): appends a record without sample id
and without timing result, and returns a pointer to it (its position in the log). -/
def LogAPICall (self : DX12TraceAnalyzerLayer) (inWrappedInterface : IUnknownPtr)
    (inFunctionId : FuncId) (inArgumentString : String) (inReturnValue : Int) :
    Nat × DX12TraceAnalyzerLayer :=
  (self.mLoggedCalls.length,
   { self with mLoggedCalls := self.mLoggedCalls ++
      [{ mWrappedInterface := inWrappedInterface
         mFunctionId := inFunctionId
         mArgumentString := inArgumentString
         mReturnValue := inReturnValue
         mSampleId := none
         mbProfilerResultStored := false }] })

/-- The assignment `pNewEntry->mSampleId = sampleId`. -/
def assignSampleId (self : DX12TraceAnalyzerLayer) (pNewEntry : Nat) (sampleId : Nat) :
    DX12TraceAnalyzerLayer :=
  { self with
    mLoggedCalls :=
      listModify self.mLoggedCalls pNewEntry (fun e => { e with mSampleId := some sampleId }) }

/-- Modelled from the spec: `StoreProfilerResult` (`attachTimingResult`). -/
def StoreProfilerResult (self : DX12TraceAnalyzerLayer) (pNewEntry : Nat) :
    DX12TraceAnalyzerLayer :=
  { self with
    mLoggedCalls :=
      listModify self.mLoggedCalls pNewEntry
        (fun e => { e with mbProfilerResultStored := true }) }

end DX12TraceAnalyzerLayer

/-- A value-initialised `SampleInfo`, as `mSampleIdMap[threadId]` creates it. -/
def SampleInfo.zero : SampleInfo :=
  { mSampleId := 0, mbBeginSampleSuccessful := false }

namespace DX12Interceptor

/-- Modelled from the spec: `ShouldCollectGPUTime`, the global "collect timing" flag
(declared in a header that is not among the sources). -/
def ShouldCollectGPUTime (self : DX12Interceptor) : Bool :=
  self.mbProfilerEnabled

/-- `LockGPA`. -/
def LockGPA (self : DX12Interceptor) : DX12Interceptor :=
  { self with mGPAPrePostMatcherMutex := self.mGPAPrePostMatcherMutex + 1 }

/-- `UnlockGPA`; unlocking a mutex that is not locked leaves it unlocked. -/
def UnlockGPA (self : DX12Interceptor) : DX12Interceptor :=
  { self with mGPAPrePostMatcherMutex := self.mGPAPrePostMatcherMutex - 1 }

/-- `SetNextSampleId`: reserves the next sample id and stores it in the entry of the
thread, with `mbBeginSampleSuccessful = false`. -/
def SetNextSampleId (self : DX12Interceptor) (inThreadId : Nat) : Nat × DX12Interceptor :=
  let nextId := (self.GetNextSampleId).1
  let counted := (self.GetNextSampleId).2
  let referenced :=
    { counted with mSampleIdMap := mapSubscript counted.mSampleIdMap inThreadId SampleInfo.zero }
  let idWritten :=
    { referenced with
      mSampleIdMap :=
        mapModify referenced.mSampleIdMap inThreadId (fun i => { i with mSampleId := nextId }) }
  let flagWritten :=
    { idWritten with
      mSampleIdMap :=
        mapModify idWritten.mSampleIdMap inThreadId
          (fun i => { i with mbBeginSampleSuccessful := false }) }
  (nextId, flagWritten)

/-- `SwitchGPAContext`: selects the context in the backend while GPU time is collected;
a failure status is only logged. -/
def SwitchGPAContext (self : DX12Interceptor) (inCurrentContext : Nat)
    (selectStatus : GPA_Status) : DX12Interceptor :=
  if self.ShouldCollectGPUTime then
    { self with
      mGPALoader :=
        self.mGPALoader ++ [GPACall.GPA_SelectContext inCurrentContext selectStatus] }
  else
    self

end DX12Interceptor

/-- The interceptor together with the trace analyzer layer it reports to. -/
structure Server where
  interceptor : DX12Interceptor
  traceAnalyzerLayer : DX12TraceAnalyzerLayer
deriving DecidableEq

/-- The sampling part of `PreCall`, reached under the lock with a non-null wrapper:
counts the sample on the command list, reserves the sample id, begins the sample and
records whether that succeeded. -/
def PreCall_sample (s : Server) (threadId : Nat) (pWrappedGraphicsCommandList : IUnknownPtr)
    (mRealGraphicsCommandList : Nat) (selectStatus beginStatus : GPA_Status) : Server :=
  let counted : DX12Interceptor :=
    match mapFind s.interceptor.mSamplesPerCommandList pWrappedGraphicsCommandList with
    | none =>
      { s.interceptor with
        mSamplesPerCommandList :=
          mapAssign s.interceptor.mSamplesPerCommandList pWrappedGraphicsCommandList 1 }
    | some _ =>
      { s.interceptor with
        mSamplesPerCommandList :=
          mapModify s.interceptor.mSamplesPerCommandList pWrappedGraphicsCommandList
            (fun count => (count + 1) % GPA_UINT32_RANGE) }
  let referenced : DX12Interceptor :=
    { counted with mSampleIdMap := mapSubscript counted.mSampleIdMap threadId SampleInfo.zero }
  let sampleId := (referenced.SetNextSampleId threadId).1
  let reserved := (referenced.SetNextSampleId threadId).2
  let switched := reserved.SwitchGPAContext mRealGraphicsCommandList selectStatus
  let idWritten : DX12Interceptor :=
    { switched with
      mSampleIdMap :=
        mapModify switched.mSampleIdMap threadId (fun i => { i with mSampleId := sampleId }) }
  let begun : DX12Interceptor :=
    { idWritten with
      mGPALoader :=
        idWritten.mGPALoader ++ [GPACall.GPA_BeginSample sampleId beginStatus] }
  let flagWritten : DX12Interceptor :=
    { begun with
      mSampleIdMap :=
        mapModify begun.mSampleIdMap threadId
          (fun i => { i with mbBeginSampleSuccessful := decide (beginStatus = GPA_STATUS_OK) }) }
  if beginStatus = GPA_STATUS_OK then
    { interceptor := flagWritten
      traceAnalyzerLayer :=
        s.traceAnalyzerLayer.AddSampleToCommandList mRealGraphicsCommandList sampleId }
  else
    { interceptor := flagWritten, traceAnalyzerLayer := s.traceAnalyzerLayer }

/-- `PreCall`. -/
def PreCall (s : Server) (threadId : Nat) (inWrappedInterface : IUnknownPtr)
    (inFunctionId : FuncId) (mRealGraphicsCommandList : Nat)
    (selectStatus beginStatus : GPA_Status) : Server :=
  let instrumented : Server :=
    if s.interceptor.ShouldCollectGPUTime &&
        s.traceAnalyzerLayer.ShouldProfileFunction inFunctionId then
      let locked : Server := { s with interceptor := s.interceptor.LockGPA }
      let pWrappedGraphicsCommandList := inWrappedInterface
      if pWrappedGraphicsCommandList ≠ NULL then
        PreCall_sample locked threadId pWrappedGraphicsCommandList mRealGraphicsCommandList
          selectStatus beginStatus
      else
        locked
    else
      s
  { instrumented with traceAnalyzerLayer := instrumented.traceAnalyzerLayer.BeforeAPICall }

/-- The sampling part of `PostCall`, reached for a profiled call after the record
`pNewEntry` has been logged: ends the sample when the entry of the thread says that
`BeginSample` succeeded, and attaches the sample id when `EndSample` succeeds. -/
def PostCall_sample (s : Server) (threadId : Nat) (pNewEntry : Nat)
    (endSampleStatus : GPA_Status) : Server :=
  match mapFind s.interceptor.mSampleIdMap threadId with
  | some sampleInfo =>
    if sampleInfo.mbBeginSampleSuccessful then
      let ended : DX12Interceptor :=
        { s.interceptor with
          mGPALoader :=
            s.interceptor.mGPALoader ++ [GPACall.GPA_EndSample endSampleStatus] }
      if endSampleStatus = GPA_STATUS_OK then
        { interceptor := ended
          traceAnalyzerLayer :=
            (s.traceAnalyzerLayer.assignSampleId pNewEntry
              sampleInfo.mSampleId).StoreProfilerResult pNewEntry }
      else
        { interceptor := ended, traceAnalyzerLayer := s.traceAnalyzerLayer }
    else
      s
  | none => s

/-- `PostCall`. -/
def PostCall (s : Server) (threadId : Nat) (inWrappedInterface : IUnknownPtr)
    (inFunctionId : FuncId) (inArgumentString : String) (inReturnValue : Int)
    (endSampleStatus : GPA_Status) : Server :=
  let pNewEntry := (s.traceAnalyzerLayer.LogAPICall inWrappedInterface inFunctionId
    inArgumentString inReturnValue).1
  let logged : Server :=
    { s with traceAnalyzerLayer := (s.traceAnalyzerLayer.LogAPICall inWrappedInterface
        inFunctionId inArgumentString inReturnValue).2 }
  if logged.interceptor.ShouldCollectGPUTime &&
      logged.traceAnalyzerLayer.ShouldProfileFunction inFunctionId then
    let sampled := PostCall_sample logged threadId pNewEntry endSampleStatus
    { sampled with interceptor := sampled.interceptor.UnlockGPA }
  else
    logged

/-! ## Sequences of instrumented calls -/

/-- The inputs of one `PreCall`/`PostCall` pair around an API call. -/
structure CallPair where
  threadId : Nat
  inWrappedInterface : IUnknownPtr
  inFunctionId : FuncId
  mRealGraphicsCommandList : Nat
  selectStatus : GPA_Status
  beginStatus : GPA_Status
  endSampleStatus : GPA_Status
  inArgumentString : String
  inReturnValue : Int
deriving DecidableEq

/-- A `PreCall` followed by the `PostCall` of the same call. -/
def runPair (s : Server) (p : CallPair) : Server :=
  PostCall
    (PreCall s p.threadId p.inWrappedInterface p.inFunctionId p.mRealGraphicsCommandList
      p.selectStatus p.beginStatus)
    p.threadId p.inWrappedInterface p.inFunctionId p.inArgumentString p.inReturnValue
    p.endSampleStatus

/-- What happens between API calls: an instrumented call, or a frame boundary, at which
`ResetSampleIdCounter` is called. -/
inductive FrameEvent where
  | call (p : CallPair)
  | newFrame
deriving DecidableEq

/-- Whether an event is a frame boundary or a call whose wrapped interface is not
`NULL`. -/
def FrameEvent.hasWrappedInterface : FrameEvent → Bool
  | FrameEvent.call p => decide (p.inWrappedInterface ≠ NULL)
  | FrameEvent.newFrame => true

/-- The server after one event. -/
def runEvent (s : Server) : FrameEvent → Server
  | FrameEvent.call p => runPair s p
  | FrameEvent.newFrame => { s with interceptor := s.interceptor.ResetSampleIdCounter }

/-- The server after a sequence of events. -/
def runEvents (s : Server) (events : List FrameEvent) : Server :=
  events.foldl runEvent s

/-- Whether a sequence of backend calls is bracketed correctly, given whether a sample
is open at its start: a `GPA_BeginSample` is made only while no sample is open, it opens
one exactly when it returns `GPA_STATUS_OK`, a `GPA_EndSample` is made only while a
sample is open and closes it, and no sample is open at the end. -/
def bracketsBalanced : Bool → List GPACall → Bool
  | sampleOpen, [] => !sampleOpen
  | sampleOpen, GPACall.GPA_SelectContext _ _ :: rest => bracketsBalanced sampleOpen rest
  | sampleOpen, GPACall.GPA_BeginSample _ status :: rest =>
      !sampleOpen && bracketsBalanced (decide (status = GPA_STATUS_OK)) rest
  | sampleOpen, GPACall.GPA_EndSample _ :: rest =>
      sampleOpen && bracketsBalanced false rest

/-- A server in which GPU time is collected and the function id `7` is on the
allow-list, before any call. -/
def profilingServer : Server :=
  { interceptor := { DX12Interceptor.create with mbProfilerEnabled := true }
    traceAnalyzerLayer :=
      { mProfiledFunctions := [7]
        mLoggedCalls := []
        mCommandListSamples := []
        mBeforeAPICallCount := 0 } }

/-- A profiled call of function `7` on thread `1`, on the command-list wrapper `50` of
the real command list `60`; every backend call succeeds. -/
def goodCall : CallPair :=
  { threadId := 1, inWrappedInterface := 50, inFunctionId := 7,
    mRealGraphicsCommandList := 60, selectStatus := GPA_STATUS_OK,
    beginStatus := GPA_STATUS_OK, endSampleStatus := GPA_STATUS_OK,
    inArgumentString := "", inReturnValue := 0 }

/-- A call of function `7` on thread `1` whose wrapped interface is `NULL`. -/
def nullCall : CallPair :=
  { threadId := 1, inWrappedInterface := NULL, inFunctionId := 7,
    mRealGraphicsCommandList := 0, selectStatus := GPA_STATUS_OK,
    beginStatus := GPA_STATUS_OK, endSampleStatus := GPA_STATUS_OK,
    inArgumentString := "", inReturnValue := 0 }

/-- The server after a profiled call on `profilingServer` whose `BeginSample` succeeds
and during which the frame ends: `PreCall`, then `ResetSampleIdCounter`, then
`PostCall`. -/
def interruptedCall : Server :=
  PostCall
    { PreCall profilingServer 1 50 7 60 0 0 with
      interceptor := (PreCall profilingServer 1 50 7 60 0 0).interceptor.ResetSampleIdCounter }
    1 50 7 "" 0 0

/-! ## Installing and removing the hooks

The bodies below are those of the build without `DLL_REPLACEMENT`, in which the entry
points are hooked with `Attach` and `Detach`.  The outcomes of the calls into the
operating system and the hook installer are inputs. -/

/-- The four monitored entry points, each with its hook member (`mHook_...`). -/
inductive EntryPoint where
  | D3D12GetDebugInterface
  | D3D12CreateDevice
  | D3D12SerializeRootSignature
  | D3D12CreateRootSignatureDeserializer
deriving DecidableEq

/-- The value `NO_ERROR` of a hook error code. -/
def NO_ERROR : Nat := 0

/-- The outcomes of the external calls of `HookInterceptor`. -/
structure HookOutcomes where
  osLoadModule : Bool
  BeginHook : Nat
  osGetProcedureAddress : EntryPoint → Bool
  Attach : EntryPoint → Bool
  EndHook : Nat

/-- The locals of `HookInterceptor`, with the `Attach` calls made so far. -/
structure HookProgress where
  bThisInitialized : Bool
  errorString : Option String
  attachCalls : List EntryPoint

/-- The block of `HookInterceptor` for one entry point: when the export is found, the
hook is set and `bThisInitialized` is assigned the result of `Attach`; otherwise an
error is logged. -/
def hookEntryPoint (o : HookOutcomes) (e : EntryPoint) (st : HookProgress) : HookProgress :=
  if o.osGetProcedureAddress e = true then
    { st with bThisInitialized := o.Attach e, attachCalls := st.attachCalls ++ [e] }
  else
    st

/-- `HookInterceptor`: the returned `bThisInitialized`, with the `Attach` calls made. -/
def HookInterceptor (o : HookOutcomes) : HookProgress :=
  let start : HookProgress :=
    { bThisInitialized := false, errorString := none, attachCalls := [] }
  if o.osLoadModule then
    if o.BeginHook = NO_ERROR then
      let hooked :=
        hookEntryPoint o EntryPoint.D3D12CreateRootSignatureDeserializer
          (hookEntryPoint o EntryPoint.D3D12SerializeRootSignature
            (hookEntryPoint o EntryPoint.D3D12CreateDevice
              (hookEntryPoint o EntryPoint.D3D12GetDebugInterface start)))
      if o.EndHook ≠ NO_ERROR then
        { hooked with errorString := some "EndHook Failed." }
      else
        hooked
    else
      { start with errorString := some "BeginHook Failed." }
  else
    { start with errorString := some "Failed to find API module to hook." }

/-- `Initialize`: hooks the entry points and, in the `USE_GPA_PROFILING` build, loads the
timing backend; `bLoadSuccessful` is what `InitializeGPA` returns. -/
def Initialize (USE_GPA_PROFILING : Bool) (o : HookOutcomes) (bLoadSuccessful : Bool) : Bool :=
  let bInitialized := (HookInterceptor o).bThisInitialized
  if USE_GPA_PROFILING then bInitialized && bLoadSuccessful else bInitialized

/-- The outcomes of the external calls of `UnhookInterceptor`; `Detach e n` is what the
call number `n` (from `0`) of `Detach` on the hook of `e` returns. -/
structure UnhookOutcomes where
  BeginHook : Nat
  Detach : EntryPoint → Nat → Bool
  EndHook : Nat

/-- The locals of `UnhookInterceptor`, with the `Detach` calls made. -/
structure UnhookProgress where
  bDetachSuccessful : Bool
  errorMessage : Option String
  detachCalls : List EntryPoint

/-- `UnhookInterceptor`: the returned `bDetachSuccessful`, with the `Detach` calls
made. -/
def UnhookInterceptor (o : UnhookOutcomes) : UnhookProgress :=
  let bDetachSuccessful := true
  if o.BeginHook = NO_ERROR then
    let afterFirst := bDetachSuccessful && o.Detach EntryPoint.D3D12CreateDevice 0
    let afterSecond := afterFirst && o.Detach EntryPoint.D3D12SerializeRootSignature 0
    let afterThird := afterSecond && o.Detach EntryPoint.D3D12SerializeRootSignature 1
    let detachCalls :=
      [EntryPoint.D3D12CreateDevice, EntryPoint.D3D12SerializeRootSignature,
        EntryPoint.D3D12SerializeRootSignature]
    if afterThird then
      if o.EndHook = NO_ERROR then
        { bDetachSuccessful := true, errorMessage := none, detachCalls := detachCalls }
      else
        { bDetachSuccessful := afterThird, errorMessage := some "EndHook failed."
          detachCalls := detachCalls }
    else
      { bDetachSuccessful := afterThird, errorMessage := some "Detaching hooks failed."
        detachCalls := detachCalls }
  else
    { bDetachSuccessful := bDetachSuccessful, errorMessage := some "BeginHook failed."
      detachCalls := [] }

/-- `Shutdown`: calls `UnhookInterceptor`, then returns `true`.  The second component
lists the `Detach` calls made. -/
def Shutdown (o : UnhookOutcomes) : Bool × List EntryPoint :=
  let unhooked := UnhookInterceptor o
  (true, unhooked.detachCalls)

/-- Every external call of `HookInterceptor` succeeds. -/
def allHooked : HookOutcomes :=
  { osLoadModule := true
    BeginHook := NO_ERROR
    osGetProcedureAddress := fun _ => true
    Attach := fun _ => true
    EndHook := NO_ERROR }

/-- Every external call of `HookInterceptor` succeeds, except the `Attach` of the first
hook, `D3D12GetDebugInterface`. -/
def firstAttachFails : HookOutcomes :=
  { allHooked with
    Attach := fun e => decide (e ≠ EntryPoint.D3D12GetDebugInterface) }

/-- Every external call of `HookInterceptor` succeeds, except `EndHook`. -/
def endHookFails : HookOutcomes :=
  { allHooked with EndHook := 1 }

/-- Every external call of `UnhookInterceptor` succeeds. -/
def allDetached : UnhookOutcomes :=
  { BeginHook := NO_ERROR, Detach := fun _ _ => true, EndHook := NO_ERROR }

/-- The `Detach` of the `D3D12CreateDevice` hook fails; every other external call of
`UnhookInterceptor` succeeds. -/
def detachFails : UnhookOutcomes :=
  { BeginHook := NO_ERROR
    Detach := fun e _ => decide (e ≠ EntryPoint.D3D12CreateDevice)
    EndHook := NO_ERROR }

/-! ## The hooked entry points

The `Mine_` functions call the real entry point first; what the real call returns and
what it leaves in the out pointer are inputs, as are the addresses that `new` and
`DX12CmdListProfiler::Create` return. -/

/-- A result code (`HRESULT`). -/
abbrev HRESULT := Int

/-- The success code `S_OK`. -/
def S_OK : HRESULT := 0

/-- The failure code `E_FAIL` (0x80004005 as a signed 32-bit value). -/
def E_FAIL : HRESULT := -2147467259

/-- Modelled from the spec: the tag of the top-level "device" type,
`kObjectType_ID3D12Device` (`DX12Defines.h` is not among the sources; the ordinal is not
used by any property). -/
def kObjectType_ID3D12Device : eObjectType := 0

/-- Modelled from the spec: the tag `kObjectType_ID3D12RootSignatureDeserializer` of the
closed enumeration of object types (`DX12Defines.h` is not among the sources; the ordinal
is not used by any property). -/
def kObjectType_ID3D12RootSignatureDeserializer : eObjectType := 1

/-- The state the hooked entry points work on: the heap of metadata objects, the member
`mReal...` of every wrapper object (what the wrapper at an address was constructed from),
the object database, and the static map `sDeviceToProfilerMap` from real device to
profiler. -/
structure HookedState where
  heap : Heap
  mRealOf : IUnknownPtr → IUnknownPtr
  db : DX12WrappedObjectDatabase
  sDeviceToProfilerMap : List (Nat × Nat)

/-- The state before any object has been created. -/
def HookedState.empty : HookedState :=
  { heap := Heap.zero
    mRealOf := fun _ => NULL
    db := DX12WrappedObjectDatabase.empty
    sDeviceToProfilerMap := [] }

/-- What a `Wrap...` function leaves behind: the flag `GenericWrapObject` returned, the
in/out pointer and the state. -/
structure WrappedResult where
  result : Bool
  ppReal : IUnknownPtr
  state : HookedState

/-- The registration of an object of type `inObjectType` through `GenericWrapObject`,
with no parent device: the wrapper that `new U(*ppReal)` constructs keeps `*ppReal` as
its real instance. -/
def wrapThroughDatabase (pWrapper : IUnknownPtr) (objectData : MetadataPtr)
    (st : HookedState) (ppReal : IUnknownPtr) (inObjectType : eObjectType)
    (inCreateInfo : Nat) : WrappedResult :=
  let wrapped := GenericWrapObject pWrapper objectData st.heap st.db NULL ppReal
    inObjectType inCreateInfo
  { result := wrapped.result
    ppReal := wrapped.ppReal
    state :=
      { st with
        heap := wrapped.heap
        db := wrapped.db
        mRealOf :=
          if wrapped.result then
            fun w => if w = pWrapper then ppReal else st.mRealOf w
          else st.mRealOf } }

/-- Modelled from the spec: `WrapD3D12Device` (`Autogenerated/DX12CoreWrappers`, not
among the sources), which wraps the result "through the Object Identity Registry":
`GenericWrapObject` with the device type. -/
def WrapD3D12Device (pWrapper : IUnknownPtr) (objectData : MetadataPtr)
    (st : HookedState) (inRealDevice : IUnknownPtr) (inCreateInfo : Nat) : WrappedResult :=
  wrapThroughDatabase pWrapper objectData st inRealDevice kObjectType_ID3D12Device
    inCreateInfo

/-- Modelled from the spec: `WrapD3D12RootSignatureDeserializer`
(`Autogenerated/DX12CoreWrappers`, not among the sources): `GenericWrapObject` with the
root-signature-deserializer type. -/
def WrapD3D12RootSignatureDeserializer (pWrapper : IUnknownPtr) (objectData : MetadataPtr)
    (st : HookedState) (inReal : IUnknownPtr) (inCreateInfo : Nat) : WrappedResult :=
  wrapThroughDatabase pWrapper objectData st inReal
    kObjectType_ID3D12RootSignatureDeserializer inCreateInfo

/-- `Mine_D3D12GetDebugInterface`: returns what the real function returned. -/
def Mine_D3D12GetDebugInterface (getDebugInterfaceResult : HRESULT) : HRESULT :=
  getDebugInterfaceResult

/-- `Mine_D3D12SerializeRootSignature`: returns what the real function returned. -/
def Mine_D3D12SerializeRootSignature (serializeResult : HRESULT) : HRESULT :=
  serializeResult

/-- The outcome of the real `D3D12CreateDevice` and of the allocations of
`Mine_D3D12CreateDevice`: the returned code, the out pointer (`none` when `ppDevice` is
`NULL`, otherwise the value of `*ppDevice` after the real call), and the addresses of the
new create-info, wrapper, metadata and profiler. -/
structure CreateDeviceCall where
  deviceCreateResult : HRESULT
  ppDevice : Option IUnknownPtr
  deviceCreateInfo : Nat
  pWrapper : IUnknownPtr
  objectData : MetadataPtr
  pProfiler : Nat
deriving DecidableEq

/-- What a hooked creation function leaves behind: the returned code, the out pointer
and the state. -/
structure HookedResult where
  result : HRESULT
  ppOut : Option IUnknownPtr
  state : HookedState

/-- `Mine_D3D12CreateDevice`.  `OptionCollectFrameStats` is the value of
`SG_GET_BOOL(OptionCollectFrameStats)`; the association of the real device with a new
profiler is made in the build with `USE_GPA_PROFILING == 0`. -/
def Mine_D3D12CreateDevice (USE_GPA_PROFILING OptionCollectFrameStats : Bool)
    (st : HookedState) (c : CreateDeviceCall) : HookedResult :=
  let deviceCreateResult := c.deviceCreateResult
  if OptionCollectFrameStats = false then
    match c.ppDevice with
    | some device =>
      if deviceCreateResult = S_OK ∧ device ≠ NULL then
        let wrapped := WrapD3D12Device c.pWrapper c.objectData st device c.deviceCreateInfo
        if USE_GPA_PROFILING = false then
          let pAppDevice := wrapped.ppReal
          let pRealDevice := wrapped.state.mRealOf pAppDevice
          { result := deviceCreateResult
            ppOut := some wrapped.ppReal
            state :=
              { wrapped.state with
                sDeviceToProfilerMap :=
                  mapAssign wrapped.state.sDeviceToProfilerMap pRealDevice c.pProfiler } }
        else
          { result := deviceCreateResult, ppOut := some wrapped.ppReal
            state := wrapped.state }
      else
        { result := deviceCreateResult, ppOut := c.ppDevice, state := st }
    | none => { result := deviceCreateResult, ppOut := c.ppDevice, state := st }
  else
    { result := deviceCreateResult, ppOut := c.ppDevice, state := st }

/-- The outcome of the real `D3D12CreateRootSignatureDeserializer` and of the
allocations of its hook: the returned code, the value of
`*ppRootSignatureDeserializer` after the real call (the out pointer itself is required
by the API and is not `NULL`), and the addresses of the new create-info, wrapper and
metadata. -/
structure CreateDeserializerCall where
  createResult : HRESULT
  ppRootSignatureDeserializer : IUnknownPtr
  rootSignatureDeserializerCreateInfo : Nat
  pWrapper : IUnknownPtr
  objectData : MetadataPtr
deriving DecidableEq

/-- `Mine_D3D12CreateRootSignatureDeserializer`: calls the real function, then wraps
what the out pointer holds, and returns the code of the real function. -/
def Mine_D3D12CreateRootSignatureDeserializer (st : HookedState)
    (c : CreateDeserializerCall) : HookedResult :=
  let createResult := c.createResult
  let wrapped := WrapD3D12RootSignatureDeserializer c.pWrapper c.objectData st
    c.ppRootSignatureDeserializer c.rootSignatureDeserializerCreateInfo
  { result := createResult, ppOut := some wrapped.ppReal, state := wrapped.state }

/-- A real `D3D12CreateRootSignatureDeserializer` call that fails with `E_FAIL` and
leaves `NULL` in the out pointer. -/
def failedDeserializerCall : CreateDeserializerCall :=
  { createResult := E_FAIL, ppRootSignatureDeserializer := NULL,
    rootSignatureDeserializerCreateInfo := 300, pWrapper := 10, objectData := 100 }

/-- A real `D3D12CreateDevice` call that succeeds and yields the real device `1`; the
hook would allocate the wrapper `10`, the metadata `100` and the profiler `500`. -/
def firstDeviceCall : CreateDeviceCall :=
  { deviceCreateResult := S_OK, ppDevice := some 1, deviceCreateInfo := 300,
    pWrapper := 10, objectData := 100, pProfiler := 500 }

/-- A later real `D3D12CreateDevice` call that succeeds and yields the same real device
`1`; the hook would allocate the wrapper `11`, the metadata `101` and the profiler
`501`. -/
def secondDeviceCall : CreateDeviceCall :=
  { deviceCreateResult := S_OK, ppDevice := some 1, deviceCreateInfo := 301,
    pWrapper := 11, objectData := 101, pProfiler := 501 }

/-! ## The two locked steps of `GenericWrapObject`

`WrappedObject` and `Add` each hold `mCurrentObjectsMapLock` for their own duration, so
a thread running `GenericWrapObject` makes two atomic steps on the database: the check,
and, when the check returned `false`, the registration. -/

/-- The part of `GenericWrapObject` after a check that returned `false`: the two
allocations, `Add`, the parent device and the out pointer. -/
def GenericWrapObject_register (pWrapper : IUnknownPtr) (objectData : MetadataPtr)
    (heap : Heap) (objectDatabase : DX12WrappedObjectDatabase)
    (inParentDevice : Nat) (ppReal : IUnknownPtr) (inObjectType : eObjectType)
    (inCreateInfo : Nat) : WrapResult :=
  let heapNew := heap.store objectData
    (IDX12InstanceBase.create ppReal pWrapper inObjectType inCreateInfo)
  let dbAdded := objectDatabase.Add heapNew objectData
  let heapSet := heapNew.store objectData
    ((heapNew objectData).SetParentDeviceHandle inParentDevice)
  { result := true, ppReal := pWrapper, heap := heapSet, db := dbAdded }

/-- Two threads wrap the same new real object `1` on a new database, and both make
their check before either registers: the state after the registration of the first
thread (wrapper `10`, metadata `100`). -/
def raceFirstRegistered : WrapResult :=
  GenericWrapObject_register 10 100 Heap.zero DX12WrappedObjectDatabase.empty 0 1 0 0

/-- The state after the registration of the second thread (wrapper `11`, metadata
`101`), which follows that of the first. -/
def raceSecondRegistered : WrapResult :=
  GenericWrapObject_register 11 101 raceFirstRegistered.heap raceFirstRegistered.db 0 1 0 0

/-! ## Concurrent calls of `GetNextSampleId`

`GetNextSampleId` holds `mUniqueSampleIdMutex` from its first statement until it has
read the value it returns, so concurrent calls take effect one at a time.  A schedule
lists the calling threads in the order in which their calls take the lock. -/

/-- The calls of a schedule, each with the id it returns, in the order of the schedule. -/
def DX12Interceptor.runSchedule (self : DX12Interceptor) : List Nat → List (Nat × Nat)
  | [] => []
  | threadId :: rest =>
      (threadId, (self.GetNextSampleId).1) :: runSchedule (self.GetNextSampleId).2 rest

/-- The schedules of `N` threads (numbered from `0`) that call `M` times each. -/
def isInterleaving (N M : Nat) (schedule : List Nat) : Prop :=
  schedule.Perm ((List.range N).flatMap (fun t => List.replicate M t))

/-! ## `MdoStats`: tracking of heap allocations

The width of the member `m_totalConsumption` is declared in `mdoStats.h`, which is not
among the sources; the functions take the number of its values, `range` (a power of two),
as a parameter.  Printing is left out. -/

/-- The `erase(key)` of a key-unique map. -/
def mapErase {β : Type} : List (Nat × β) → Nat → List (Nat × β)
  | [], _ => []
  | (k, v) :: rest, key => if k = key then rest else (k, v) :: mapErase rest key

/-- The flags of `MdoConfig` that `MdoStats` reads. -/
structure MdoConfig where
  dbgMdoSpaceUsage : Bool
  dbgMdoTimeUsage : Bool
deriving DecidableEq

/-- The members of `MdoStats` that the tracking functions read or write. -/
structure MdoStats where
  m_mdoConfig : MdoConfig
  m_allocSizes : List (Nat × Nat)
  m_totalConsumption : Nat
deriving DecidableEq

namespace MdoStats

/-- The constructor: the configuration is copied, nothing is tracked, the total is
`0`. -/
def create (mdoConfig : MdoConfig) : MdoStats :=
  { m_mdoConfig := mdoConfig, m_allocSizes := [], m_totalConsumption := 0 }

/-- `TrackAlloc`: records the size under the pointer and adds it to the total. -/
def TrackAlloc (range : Nat) (self : MdoStats) (numBytes pMem : Nat) : MdoStats :=
  if self.m_mdoConfig.dbgMdoSpaceUsage = true then
    { self with
      m_allocSizes := mapAssign self.m_allocSizes pMem numBytes
      m_totalConsumption := (self.m_totalConsumption + numBytes) % range }
  else
    self

/-- `TrackFree`: when the pointer is tracked, subtracts its recorded size from the
total (unsigned arithmetic) and erases it. -/
def TrackFree (range : Nat) (self : MdoStats) (pMem : Nat) : MdoStats :=
  if self.m_mdoConfig.dbgMdoSpaceUsage = true then
    match mapFind self.m_allocSizes pMem with
    | some freedBytes =>
      { self with
        m_totalConsumption :=
          (self.m_totalConsumption + (range - freedBytes % range)) % range
        m_allocSizes := mapErase self.m_allocSizes pMem }
    | none => self
  else
    self

end MdoStats

/-- A call of one of the two tracking functions. -/
inductive MdoCall where
  | TrackAlloc (numBytes pMem : Nat)
  | TrackFree (pMem : Nat)
deriving DecidableEq

/-- The tracker after one call. -/
def MdoStats.step (range : Nat) (self : MdoStats) : MdoCall → MdoStats
  | MdoCall.TrackAlloc numBytes pMem => self.TrackAlloc range numBytes pMem
  | MdoCall.TrackFree pMem => self.TrackFree range pMem

/-- The tracker after a sequence of calls. -/
def MdoStats.run (range : Nat) (self : MdoStats) (calls : List MdoCall) : MdoStats :=
  calls.foldl (MdoStats.step range) self

/-- Whether no `TrackAlloc` of the sequence is made on a pointer that is tracked at that
moment. -/
def MdoStats.allocatesUntracked (range : Nat) : MdoStats → List MdoCall → Bool
  | _, [] => true
  | self, MdoCall.TrackAlloc numBytes pMem :: rest =>
      !mapContains self.m_allocSizes pMem &&
        allocatesUntracked range (self.TrackAlloc range numBytes pMem) rest
  | self, MdoCall.TrackFree pMem :: rest =>
      allocatesUntracked range (self.TrackFree range pMem) rest

/-- The sum of the sizes recorded for the tracked pointers. -/
def trackedBytes (m : List (Nat × Nat)) : Nat :=
  (m.map Prod.snd).sum

/-- A tracker with space-usage tracking enabled. -/
def spaceTracker : MdoStats :=
  MdoStats.create { dbgMdoSpaceUsage := true, dbgMdoTimeUsage := false }

/-- `BeginHook` fails; every other external call of `UnhookInterceptor` would succeed. -/
def unhookBeginFails : UnhookOutcomes :=
  { BeginHook := 1, Detach := fun _ _ => true, EndHook := NO_ERROR }

/-- `EndHook` fails; every other external call of `UnhookInterceptor` succeeds. -/
def unhookEndFails : UnhookOutcomes :=
  { BeginHook := NO_ERROR, Detach := fun _ _ => true, EndHook := 1 }

/-! ## Lemmas on the containers -/

theorem mapFind_mapAssign_same {β : Type} (m : List (Nat × β)) (key : Nat) (value : β) :
    mapFind (mapAssign m key value) key = some value := by
  induction m with
  | nil => simp [mapAssign, mapFind]
  | cons e rest ih =>
    obtain ⟨k, v⟩ := e
    by_cases h : k = key
    · simp [mapAssign, mapFind, h]
    · simp [mapAssign, mapFind, h, ih]

theorem mapFind_mapAssign_other {β : Type} (m : List (Nat × β)) (key other : Nat) (value : β)
    (h : key ≠ other) : mapFind (mapAssign m key value) other = mapFind m other := by
  induction m with
  | nil => simp [mapAssign, mapFind, h]
  | cons e rest ih =>
    obtain ⟨k, v⟩ := e
    by_cases hk : k = key
    · subst hk
      simp [mapAssign, mapFind, h]
    · by_cases ho : k = other
      · subst ho
        simp [mapAssign, mapFind, hk]
      · simp [mapAssign, mapFind, hk, ho, ih]

theorem Heap.store_same (heap : Heap) (p : MetadataPtr) (m : IDX12InstanceBase) :
    heap.store p m p = m := by
  simp [Heap.store]

theorem Heap.store_other (heap : Heap) (p q : MetadataPtr) (m : IDX12InstanceBase)
    (h : q ≠ p) : heap.store p m q = heap q := by
  simp [Heap.store, h]

theorem mapFind_eq_none_of_not_contains {β : Type} (m : List (Nat × β)) (key : Nat)
    (h : mapContains m key = false) : mapFind m key = none := by
  unfold mapContains at h
  cases hf : mapFind m key with
  | none => rfl
  | some v => simp [hf] at h

/-- What `GenericWrapObject` does on a handle that is not a key of the real map. -/
theorem GenericWrapObject_of_unregistered (pWrapper : IUnknownPtr) (objectData : MetadataPtr)
    (heap : Heap) (db : DX12WrappedObjectDatabase) (dev r : Nat) (ty : eObjectType) (ci : Nat)
    (h : mapFind db.mRealInstanceToWrapperMetadata r = none) :
    GenericWrapObject pWrapper objectData heap db dev r ty ci =
      { result := true
        ppReal := pWrapper
        heap := (heap.store objectData (IDX12InstanceBase.create r pWrapper ty ci)).store
          objectData ((IDX12InstanceBase.create r pWrapper ty ci).SetParentDeviceHandle dev)
        db :=
          { mWrapperInstanceToWrapperMetadata :=
              mapAssign db.mWrapperInstanceToWrapperMetadata pWrapper objectData
            mRealInstanceToWrapperMetadata :=
              mapAssign db.mRealInstanceToWrapperMetadata r objectData } } := by
  simp [GenericWrapObject, DX12WrappedObjectDatabase.WrappedObject, h,
    DX12WrappedObjectDatabase.Add, Heap.store_same, IDX12InstanceBase.create,
    IDX12InstanceBase.GetApplicationHandle, IDX12InstanceBase.GetRuntimeInstance]

/-- What `GenericWrapObject` does on a handle that is a key of the real map. -/
theorem GenericWrapObject_of_registered (pWrapper : IUnknownPtr) (objectData : MetadataPtr)
    (heap : Heap) (db : DX12WrappedObjectDatabase) (dev r : Nat) (ty : eObjectType) (ci : Nat)
    (p : MetadataPtr) (h : mapFind db.mRealInstanceToWrapperMetadata r = some p) :
    GenericWrapObject pWrapper objectData heap db dev r ty ci =
      { result := false
        ppReal := (heap p).mApplicationHandle
        heap := heap
        db := db } := by
  simp [GenericWrapObject, DX12WrappedObjectDatabase.WrappedObject, h,
    IDX12InstanceBase.GetApplicationHandle]

/-! ## The object database: registration and unwrapping -/

/-- C1, as amended.  For every database state in which the real handle `r` is not yet a
key of the real map, calling `GenericWrapObject` on `r` twice returns `true` the first
time and `false` the second time; the second call leaves both maps (and the heap) as the
first call left them, and sets the out pointer to the wrapper created by the first
call. -/
theorem C1_registration_idempotence
    (pWrapper1 pWrapper2 : IUnknownPtr) (objectData1 objectData2 : MetadataPtr)
    (heap : Heap) (db : DX12WrappedObjectDatabase) (r dev1 dev2 : Nat)
    (ty1 ty2 : eObjectType) (ci1 ci2 : Nat)
    (hnew : mapContains db.mRealInstanceToWrapperMetadata r = false) :
    (GenericWrapObject pWrapper1 objectData1 heap db dev1 r ty1 ci1).result = true ∧
    (GenericWrapObject pWrapper2 objectData2
      (GenericWrapObject pWrapper1 objectData1 heap db dev1 r ty1 ci1).heap
      (GenericWrapObject pWrapper1 objectData1 heap db dev1 r ty1 ci1).db
      dev2 r ty2 ci2) =
      { result := false
        ppReal := pWrapper1
        heap := (GenericWrapObject pWrapper1 objectData1 heap db dev1 r ty1 ci1).heap
        db := (GenericWrapObject pWrapper1 objectData1 heap db dev1 r ty1 ci1).db } := by
  have hnone := mapFind_eq_none_of_not_contains _ _ hnew
  rw [GenericWrapObject_of_unregistered _ _ _ _ _ _ _ _ hnone]
  refine ⟨rfl, ?_⟩
  rw [GenericWrapObject_of_registered _ _ _ _ _ _ _ _ objectData1
    (mapFind_mapAssign_same _ _ _)]
  simp [Heap.store_same, IDX12InstanceBase.SetParentDeviceHandle, IDX12InstanceBase.create]

/-- Witness of C1: the real handle `1` on a new database, wrapped as `10`. -/
theorem C1_registration_idempotence_witness :
    mapContains DX12WrappedObjectDatabase.empty.mRealInstanceToWrapperMetadata 1 = false ∧
    (GenericWrapObject 10 100 Heap.zero DX12WrappedObjectDatabase.empty 0 1 0 0).result
      = true ∧
    (GenericWrapObject 11 101
      (GenericWrapObject 10 100 Heap.zero DX12WrappedObjectDatabase.empty 0 1 0 0).heap
      (GenericWrapObject 10 100 Heap.zero DX12WrappedObjectDatabase.empty 0 1 0 0).db
      0 1 0 0) =
      { result := false
        ppReal := 10
        heap := (GenericWrapObject 10 100 Heap.zero DX12WrappedObjectDatabase.empty
          0 1 0 0).heap
        db := (GenericWrapObject 10 100 Heap.zero DX12WrappedObjectDatabase.empty
          0 1 0 0).db } :=
  ⟨by decide,
   C1_registration_idempotence 10 11 100 101 Heap.zero DX12WrappedObjectDatabase.empty
     1 0 0 0 0 0 0 (by decide)⟩

/-- C1 as stated fails: in the database `oneObject`, where the real handle `1` is
already registered, the first of two `GenericWrapObject` calls on `1` returns `false`,
not `true`. -/
theorem C1_first_call_false_when_registered :
    mapContains oneObject.db.mRealInstanceToWrapperMetadata 1 = true ∧
    (GenericWrapObject 11 101 oneObject.heap oneObject.db 0 1 0 0).result = false ∧
    ¬ ((GenericWrapObject 11 101 oneObject.heap oneObject.db 0 1 0 0).result = true ∧
       (GenericWrapObject 12 102
          (GenericWrapObject 11 101 oneObject.heap oneObject.db 0 1 0 0).heap
          (GenericWrapObject 11 101 oneObject.heap oneObject.db 0 1 0 0).db
          0 1 0 0).result = false ∧
       (GenericWrapObject 12 102
          (GenericWrapObject 11 101 oneObject.heap oneObject.db 0 1 0 0).heap
          (GenericWrapObject 11 101 oneObject.heap oneObject.db 0 1 0 0).db
          0 1 0 0).db = (GenericWrapObject 11 101 oneObject.heap oneObject.db 0 1 0 0).db ∧
       (GenericWrapObject 12 102
          (GenericWrapObject 11 101 oneObject.heap oneObject.db 0 1 0 0).heap
          (GenericWrapObject 11 101 oneObject.heap oneObject.db 0 1 0 0).db
          0 1 0 0).ppReal = 11) := by
  decide

/-- C4.  For every database state and handle `h`: if `h` is a key of the wrapper map,
`AttemptUnwrap` replaces `h` by the runtime instance of the metadata stored under `h` and
returns `true`; otherwise it leaves `h` unchanged and returns `false`.  In both cases the
two maps are unchanged. -/
theorem C4_AttemptUnwrap_contract (db : DX12WrappedObjectDatabase) (heap : Heap)
    (h : IUnknownPtr) :
    (mapContains db.mWrapperInstanceToWrapperMetadata h = true →
      ∃ wrapperMetadata,
        mapFind db.mWrapperInstanceToWrapperMetadata h = some wrapperMetadata ∧
        (db.AttemptUnwrap heap h).bUnwrappedInstance = true ∧
        (db.AttemptUnwrap heap h).ioPossiblyWrapperInstance
          = (heap wrapperMetadata).mRuntimeInstance) ∧
    (mapContains db.mWrapperInstanceToWrapperMetadata h = false →
      (db.AttemptUnwrap heap h).bUnwrappedInstance = false ∧
      (db.AttemptUnwrap heap h).ioPossiblyWrapperInstance = h) ∧
    (db.AttemptUnwrap heap h).db = db := by
  unfold DX12WrappedObjectDatabase.AttemptUnwrap mapContains
  cases hf : mapFind db.mWrapperInstanceToWrapperMetadata h with
  | none => simp [hf]
  | some m => simp [hf, IDX12InstanceBase.GetRuntimeInstance]

/-- C5 fails on the code.  In the database `oneObject` the handle `1` is the real runtime
instance of a registered object (a key of the real map, not of the wrapper map), and
`AttemptUnwrap` returns `false` on it, leaving the pointer as it was. -/
theorem C5_AttemptUnwrap_false_on_real_handle :
    mapContains oneObject.db.mRealInstanceToWrapperMetadata 1 = true ∧
    mapContains oneObject.db.mWrapperInstanceToWrapperMetadata 1 = false ∧
    (oneObject.db.AttemptUnwrap oneObject.heap 1).bUnwrappedInstance = false ∧
    (oneObject.db.AttemptUnwrap oneObject.heap 1).ioPossiblyWrapperInstance = 1 := by
  decide

/-- C6.  For every database state and every real handle `r` that is not yet a key of the
real map: `GenericWrapObject` on `r` returns `true` with out pointer `w` (the new
wrapper); afterwards `AttemptUnwrap` on `w` yields `r` with result `true`, and
`WrappedObject` on `r` yields `w` with result `true`. -/
theorem C6_wrap_unwrap_round_trip
    (pWrapper : IUnknownPtr) (objectData : MetadataPtr)
    (heap : Heap) (db : DX12WrappedObjectDatabase) (r dev : Nat)
    (ty : eObjectType) (ci : Nat)
    (hnew : mapContains db.mRealInstanceToWrapperMetadata r = false) :
    (GenericWrapObject pWrapper objectData heap db dev r ty ci).result = true ∧
    (GenericWrapObject pWrapper objectData heap db dev r ty ci).ppReal = pWrapper ∧
    ((GenericWrapObject pWrapper objectData heap db dev r ty ci).db.AttemptUnwrap
      (GenericWrapObject pWrapper objectData heap db dev r ty ci).heap
      (GenericWrapObject pWrapper objectData heap db dev r ty ci).ppReal).bUnwrappedInstance
        = true ∧
    ((GenericWrapObject pWrapper objectData heap db dev r ty ci).db.AttemptUnwrap
      (GenericWrapObject pWrapper objectData heap db dev r ty ci).heap
      (GenericWrapObject pWrapper objectData heap db dev r ty ci).ppReal).ioPossiblyWrapperInstance
        = r ∧
    (GenericWrapObject pWrapper objectData heap db dev r ty ci).db.WrappedObject
      (GenericWrapObject pWrapper objectData heap db dev r ty ci).heap r
        = (true, (GenericWrapObject pWrapper objectData heap db dev r ty ci).ppReal) := by
  have hnone := mapFind_eq_none_of_not_contains _ _ hnew
  rw [GenericWrapObject_of_unregistered _ _ _ _ _ _ _ _ hnone]
  simp [DX12WrappedObjectDatabase.AttemptUnwrap, DX12WrappedObjectDatabase.WrappedObject,
    mapFind_mapAssign_same, Heap.store_same, IDX12InstanceBase.SetParentDeviceHandle,
    IDX12InstanceBase.create, IDX12InstanceBase.GetRuntimeInstance,
    IDX12InstanceBase.GetApplicationHandle]

/-- Witness of C6: on the database `oneObject`, the unregistered real handle `2` is
wrapped as `20`. -/
theorem C6_wrap_unwrap_round_trip_witness :
    mapContains oneObject.db.mRealInstanceToWrapperMetadata 2 = false ∧
    (GenericWrapObject 20 200 oneObject.heap oneObject.db 0 2 0 0).ppReal = 20 ∧
    ((GenericWrapObject 20 200 oneObject.heap oneObject.db 0 2 0 0).db.AttemptUnwrap
      (GenericWrapObject 20 200 oneObject.heap oneObject.db 0 2 0 0).heap
      20).ioPossiblyWrapperInstance = 2 :=
  ⟨by decide,
   (C6_wrap_unwrap_round_trip 20 200 oneObject.heap oneObject.db 2 0 0 0 (by decide)).2.1,
   by decide⟩

/-- C7.  For every database state and handle `h`, `GetMetadataObject` returns the
metadata stored under `h` in the wrapper map when `h` is a key of that map, and `NULL`
otherwise; in particular it returns `NULL` for a key of the real map that is not a key of
the wrapper map.  The database is left as it was. -/
theorem C7_GetMetadataObject_lookup (db : DX12WrappedObjectDatabase) (h : IUnknownPtr) :
    (∀ m, mapFind db.mWrapperInstanceToWrapperMetadata h = some m →
      (db.GetMetadataObject h).1 = m) ∧
    (mapContains db.mWrapperInstanceToWrapperMetadata h = false →
      (db.GetMetadataObject h).1 = NULL) ∧
    (mapContains db.mRealInstanceToWrapperMetadata h = true →
      mapContains db.mWrapperInstanceToWrapperMetadata h = false →
      (db.GetMetadataObject h).1 = NULL) ∧
    (db.GetMetadataObject h).2 = db := by
  unfold DX12WrappedObjectDatabase.GetMetadataObject mapContains
  cases hf : mapFind db.mWrapperInstanceToWrapperMetadata h with
  | none => simp [hf]
  | some m => simp [hf]

/-! ## Lemmas on key-unique maps -/

theorem mem_mapAssign {β : Type} (m : List (Nat × β)) (key : Nat) (value : β)
    (e : Nat × β) (h : e ∈ mapAssign m key value) : e = (key, value) ∨ e ∈ m := by
  induction m with
  | nil => simpa [mapAssign] using h
  | cons a rest ih =>
    obtain ⟨k, v⟩ := a
    by_cases hk : k = key
    · simp only [mapAssign, hk, if_true, List.mem_cons] at h
      rcases h with h | h
      · exact Or.inl h
      · exact Or.inr (List.mem_cons_of_mem _ h)
    · simp only [mapAssign, hk, if_false, List.mem_cons] at h
      rcases h with h | h
      · exact Or.inr (h ▸ List.mem_cons_self _ _)
      · rcases ih h with h2 | h2
        · exact Or.inl h2
        · exact Or.inr (List.mem_cons_of_mem _ h2)

theorem keysDistinct_mapAssign {β : Type} (m : List (Nat × β)) (key : Nat) (value : β)
    (h : KeysDistinct m) : KeysDistinct (mapAssign m key value) := by
  unfold KeysDistinct at *
  induction m with
  | nil => simp [mapAssign]
  | cons a rest ih =>
    obtain ⟨k, v⟩ := a
    simp only [List.map_cons, List.nodup_cons] at h
    by_cases hk : k = key
    · subst hk
      simpa [mapAssign] using h
    · simp only [mapAssign, hk, if_false, List.map_cons, List.nodup_cons]
      refine ⟨?_, ih h.2⟩
      intro hmem
      obtain ⟨e, he, hek⟩ := List.mem_map.1 hmem
      rcases mem_mapAssign rest key value e he with h2 | h2
      · apply hk
        rw [← hek, h2]
      · exact h.1 (List.mem_map.2 ⟨e, h2, hek⟩)

theorem mem_of_mapFind_eq_some {β : Type} (m : List (Nat × β)) (key : Nat) (value : β)
    (h : mapFind m key = some value) : (key, value) ∈ m := by
  induction m with
  | nil => simp [mapFind] at h
  | cons a rest ih =>
    obtain ⟨k, v⟩ := a
    by_cases hk : k = key
    · simp only [mapFind, hk, if_true, Option.some.injEq] at h
      simp [hk, h]
    · simp only [mapFind, hk, if_false] at h
      exact List.mem_cons_of_mem _ (ih h)

theorem mapFind_eq_some_of_mem {β : Type} (m : List (Nat × β)) (key : Nat) (value : β)
    (hd : KeysDistinct m) (h : (key, value) ∈ m) : mapFind m key = some value := by
  unfold KeysDistinct at hd
  induction m with
  | nil => simp at h
  | cons a rest ih =>
    obtain ⟨k, v⟩ := a
    simp only [List.map_cons, List.nodup_cons] at hd
    rcases List.mem_cons.1 h with h1 | h1
    · simp only [Prod.mk.injEq] at h1
      simp [mapFind, h1.1, h1.2]
    · have hk : k ≠ key := by
        intro hk
        exact hd.1 (List.mem_map.2 ⟨(key, value), h1, hk.symm⟩)
      simp only [mapFind, hk, if_false]
      exact ih hd.2 h1

theorem filter_eq_singleton {α : Type} (l : List α) (pred : α → Bool) (x : α)
    (hd : l.Nodup) (hx : x ∈ l) (hp : pred x = true)
    (honly : ∀ y ∈ l, pred y = true → y = x) : l.filter pred = [x] := by
  induction l with
  | nil => simp at hx
  | cons a t ih =>
    simp only [List.nodup_cons] at hd
    by_cases hax : a = x
    · subst hax
      have ht : t.filter pred = [] := by
        rw [List.filter_eq_nil_iff]
        intro y hy hpy
        have hya := honly y (List.mem_cons_of_mem _ hy) (by simpa using hpy)
        exact hd.1 (hya ▸ hy)
      simp [List.filter_cons, hp, ht]
    · have hxt : x ∈ t := by
        rcases List.mem_cons.1 hx with h | h
        · exact absurd h.symm hax
        · exact h
      have hpa : pred a = false := by
        cases hpa : pred a with
        | false => rfl
        | true => exact absurd (honly a (List.mem_cons_self _ _) hpa) hax
      simp only [List.filter_cons, hpa]
      exact ih hd.2 hxt (fun y hy hpy => honly y (List.mem_cons_of_mem _ hy) hpy)

/-! ## Databases built by `Add` -/

theorem addAll_snoc (heap : Heap) (records : List MetadataPtr) (p : MetadataPtr) :
    addAll heap (records ++ [p]) = (addAll heap records).Add heap p := by
  simp [addAll, List.foldl_append]

theorem addAll_invariant (heap : Heap) (records : List MetadataPtr) :
    AddInvariant heap records (addAll heap records) := by
  induction records using List.reverseRecOn with
  | nil =>
    refine ⟨?_, ?_, ?_, ?_⟩ <;>
      simp [addAll, DX12WrappedObjectDatabase.empty, KeysDistinct, mapFind]
  | append_singleton l q ih =>
    obtain ⟨hw, hr, hwk, hrk⟩ := ih
    rw [addAll_snoc]
    refine ⟨keysDistinct_mapAssign _ _ _ hw, keysDistinct_mapAssign _ _ _ hr, ?_, ?_⟩
    · intro k p hf
      simp only [DX12WrappedObjectDatabase.Add, IDX12InstanceBase.GetApplicationHandle] at hf
      by_cases hk : (heap q).mApplicationHandle = k
      · rw [hk, mapFind_mapAssign_same] at hf
        simp only [Option.some.injEq] at hf
        subst hf
        exact ⟨by simp, hk⟩
      · rw [mapFind_mapAssign_other _ _ _ _ hk] at hf
        exact ⟨List.mem_append_left _ (hwk k p hf).1, (hwk k p hf).2⟩
    · intro k p hf
      simp only [DX12WrappedObjectDatabase.Add, IDX12InstanceBase.GetRuntimeInstance] at hf
      by_cases hk : (heap q).mRuntimeInstance = k
      · rw [hk, mapFind_mapAssign_same] at hf
        simp only [Option.some.injEq] at hf
        subst hf
        exact ⟨by simp, hk⟩
      · rw [mapFind_mapAssign_other _ _ _ _ hk] at hf
        exact ⟨List.mem_append_left _ (hrk k p hf).1, (hrk k p hf).2⟩

theorem addAll_mapsAgree (heap : Heap) (records : List MetadataPtr)
    (hshare : ∀ p ∈ records, ∀ q ∈ records,
      ((heap p).mApplicationHandle = (heap q).mApplicationHandle ↔
        (heap p).mRuntimeInstance = (heap q).mRuntimeInstance)) :
    MapsAgree heap (addAll heap records) := by
  induction records using List.reverseRecOn with
  | nil =>
    refine ⟨?_, ?_⟩ <;> simp [addAll, DX12WrappedObjectDatabase.empty, mapFind]
  | append_singleton l q ih =>
    have ih2 := ih (fun p hp r hr =>
      hshare p (List.mem_append_left _ hp) r (List.mem_append_left _ hr))
    obtain ⟨_, _, hwk, hrk⟩ := addAll_invariant heap l
    have hq : q ∈ l ++ [q] := by simp
    rw [addAll_snoc]
    refine ⟨?_, ?_⟩
    · intro k p hf
      simp only [DX12WrappedObjectDatabase.Add, IDX12InstanceBase.GetApplicationHandle,
        IDX12InstanceBase.GetRuntimeInstance] at hf ⊢
      by_cases hk : (heap q).mApplicationHandle = k
      · rw [hk, mapFind_mapAssign_same] at hf
        simp only [Option.some.injEq] at hf
        subst hf
        exact mapFind_mapAssign_same _ _ _
      · rw [mapFind_mapAssign_other _ _ _ _ hk] at hf
        obtain ⟨hpl, hpk⟩ := hwk k p hf
        have hne : (heap q).mRuntimeInstance ≠ (heap p).mRuntimeInstance := by
          intro heq
          apply hk
          rw [← hpk]
          exact (hshare q hq p (List.mem_append_left _ hpl)).2 heq
        rw [mapFind_mapAssign_other _ _ _ _ hne]
        exact ih2.1 k p hf
    · intro k p hf
      simp only [DX12WrappedObjectDatabase.Add, IDX12InstanceBase.GetApplicationHandle,
        IDX12InstanceBase.GetRuntimeInstance] at hf ⊢
      by_cases hk : (heap q).mRuntimeInstance = k
      · rw [hk, mapFind_mapAssign_same] at hf
        simp only [Option.some.injEq] at hf
        subst hf
        exact mapFind_mapAssign_same _ _ _
      · rw [mapFind_mapAssign_other _ _ _ _ hk] at hf
        obtain ⟨hpl, hpk⟩ := hrk k p hf
        have hne : (heap q).mApplicationHandle ≠ (heap p).mApplicationHandle := by
          intro heq
          apply hk
          rw [← hpk]
          exact (hshare q hq p (List.mem_append_left _ hpl)).1 heq
        rw [mapFind_mapAssign_other _ _ _ _ hne]
        exact ih2.2 k p hf

/-- In a key-unique map whose entries are keyed by a function of the record, the entries
referring to a stored record are exactly one. -/
theorem entriesOf_eq_singleton (m : DXInterfaceToWrapperMetadata) (keyOf : MetadataPtr → Nat)
    (hd : KeysDistinct m) (hkey : ∀ k p, mapFind m k = some p → keyOf p = k)
    (p : MetadataPtr) (hp : p ∈ mapValues m) : entriesOf m p = [(keyOf p, p)] := by
  obtain ⟨e, he, hep⟩ := List.mem_map.1 hp
  obtain ⟨k, v⟩ := e
  simp only at hep
  subst hep
  have hk : keyOf v = k := hkey k v (mapFind_eq_some_of_mem m k v hd he)
  unfold entriesOf
  apply filter_eq_singleton m _ _ (List.Nodup.of_map Prod.fst hd) (hk ▸ he) (by simp)
  intro y hy hyp
  obtain ⟨ky, vy⟩ := y
  simp only [decide_eq_true_eq] at hyp
  subst hyp
  have := hkey ky vy (mapFind_eq_some_of_mem m ky vy hd hy)
  simp [this]

theorem mem_mapValues_of_mapFind (m : DXInterfaceToWrapperMetadata) (k : Nat)
    (p : MetadataPtr) (h : mapFind m k = some p) : p ∈ mapValues m :=
  List.mem_map.2 ⟨(k, p), mem_of_mapFind_eq_some m k p h, rfl⟩

theorem mapFind_of_mem_mapValues (m : DXInterfaceToWrapperMetadata) (hd : KeysDistinct m)
    (p : MetadataPtr) (h : p ∈ mapValues m) : ∃ k, mapFind m k = some p := by
  obtain ⟨e, he, hep⟩ := List.mem_map.1 h
  obtain ⟨k, v⟩ := e
  simp only at hep
  subst hep
  exact ⟨k, mapFind_eq_some_of_mem m k v hd he⟩

/-- C3, as amended.  After every sequence of `Add` calls in which any two added records
share their application handle exactly when they share their runtime instance (so in
particular when the application handles are pairwise distinct and the runtime instances
are pairwise distinct), every record stored in either map is referred to by exactly one
entry of the wrapper map, under its own application handle, and by exactly one entry of
the real map, under its own runtime instance; the two maps hold the same records. -/
theorem C3_map_consistency (heap : Heap) (records : List MetadataPtr)
    (hshare : ∀ p ∈ records, ∀ q ∈ records,
      ((heap p).mApplicationHandle = (heap q).mApplicationHandle ↔
        (heap p).mRuntimeInstance = (heap q).mRuntimeInstance)) :
    (∀ p, p ∈ mapValues (addAll heap records).mWrapperInstanceToWrapperMetadata ∨
          p ∈ mapValues (addAll heap records).mRealInstanceToWrapperMetadata →
      entriesOf (addAll heap records).mWrapperInstanceToWrapperMetadata p
        = [((heap p).mApplicationHandle, p)] ∧
      entriesOf (addAll heap records).mRealInstanceToWrapperMetadata p
        = [((heap p).mRuntimeInstance, p)]) ∧
    (∀ p, p ∈ mapValues (addAll heap records).mWrapperInstanceToWrapperMetadata ↔
          p ∈ mapValues (addAll heap records).mRealInstanceToWrapperMetadata) := by
  obtain ⟨hw, hr, hwk, hrk⟩ := addAll_invariant heap records
  obtain ⟨hwr, hrw⟩ := addAll_mapsAgree heap records hshare
  have hboth : ∀ p, p ∈ mapValues (addAll heap records).mWrapperInstanceToWrapperMetadata ↔
      p ∈ mapValues (addAll heap records).mRealInstanceToWrapperMetadata := by
    intro p
    constructor
    · intro hp
      obtain ⟨k, hk⟩ := mapFind_of_mem_mapValues _ hw p hp
      exact mem_mapValues_of_mapFind _ _ _ (hwr k p hk)
    · intro hp
      obtain ⟨k, hk⟩ := mapFind_of_mem_mapValues _ hr p hp
      exact mem_mapValues_of_mapFind _ _ _ (hrw k p hk)
  refine ⟨?_, hboth⟩
  intro p hp
  have hpw : p ∈ mapValues (addAll heap records).mWrapperInstanceToWrapperMetadata := by
    rcases hp with h | h
    · exact h
    · exact (hboth p).2 h
  exact ⟨entriesOf_eq_singleton _ (fun q => (heap q).mApplicationHandle) hw
      (fun k q hf => (hwk k q hf).2) p hpw,
    entriesOf_eq_singleton _ (fun q => (heap q).mRuntimeInstance) hr
      (fun k q hf => (hrk k q hf).2) p ((hboth p).1 hpw)⟩

/-- Witness of C3: the two records of `distinctHeap` are added, then the first one
again. -/
theorem C3_map_consistency_witness :
    entriesOf (addAll distinctHeap [100, 200, 100]).mWrapperInstanceToWrapperMetadata 200
      = [(20, 200)] ∧
    entriesOf (addAll distinctHeap [100, 200, 100]).mRealInstanceToWrapperMetadata 200
      = [(2, 200)] :=
  (C3_map_consistency distinctHeap [100, 200, 100] (by decide)).1 200 (by decide)

/-- C3 as stated fails: after `Add` of the two records of `sharedRealHeap`, which share
the runtime instance `1` and have the application handles `10` and `11`, the record at
`100` is stored in the wrapper map and no entry of the real map refers to it. -/
theorem C3_record_missing_from_real_map :
    100 ∈ mapValues (addAll sharedRealHeap [100, 101]).mWrapperInstanceToWrapperMetadata ∧
    100 ∉ mapValues (addAll sharedRealHeap [100, 101]).mRealInstanceToWrapperMetadata ∧
    entriesOf (addAll sharedRealHeap [100, 101]).mRealInstanceToWrapperMetadata 100 = [] := by
  decide

/-! ## `GetObjectsByType` -/

theorem GetObjectsByType_foldl (heap : Heap) (t : eObjectType) (onlyCurrent : Bool)
    (l : DXInterfaceToWrapperMetadata) (out : WrappedInstanceVector) :
    l.foldl (DX12WrappedObjectDatabase.GetObjectsByType_step heap t onlyCurrent) out
      = out ++ (l.filter (isRequested heap t onlyCurrent)).map Prod.snd := by
  induction l generalizing out with
  | nil => simp
  | cons e rest ih =>
    rw [List.foldl_cons, ih]
    by_cases ht : (heap e.2).mObjectType = t
    · by_cases hd : (onlyCurrent && (heap e.2).mbDestroyed) = true
      · simp [DX12WrappedObjectDatabase.GetObjectsByType_step, isRequested, List.filter_cons,
          IDX12InstanceBase.GetObjectType, IDX12InstanceBase.IsDestroyed, ht, hd]
      · simp [DX12WrappedObjectDatabase.GetObjectsByType_step, isRequested, List.filter_cons,
          IDX12InstanceBase.GetObjectType, IDX12InstanceBase.IsDestroyed, ht, hd]
    · simp [DX12WrappedObjectDatabase.GetObjectsByType_step, isRequested, List.filter_cons,
        IDX12InstanceBase.GetObjectType, ht]

/-- C8.  For every database state (any database built by `Add` calls), type `t`, flag
`onlyLive` and output vector `out`: `GetObjectsByType` returns `out` followed by the
appended records; a record is appended if and only if it is a record of the wrapper map
whose object type is `t` and, when `onlyLive` is true, whose destroyed flag is false; no
record is appended twice.  The method is `const`: it returns the vector only. -/
theorem C8_GetObjectsByType (heap : Heap) (records : List MetadataPtr) (t : eObjectType)
    (onlyLive : Bool) (out : WrappedInstanceVector) :
    ∃ appended : WrappedInstanceVector,
      (addAll heap records).GetObjectsByType heap t out onlyLive = out ++ appended ∧
      appended.Nodup ∧
      ∀ p, p ∈ appended ↔
        (p ∈ mapValues (addAll heap records).mWrapperInstanceToWrapperMetadata ∧
         (heap p).mObjectType = t ∧
         (onlyLive = true → (heap p).mbDestroyed = false)) := by
  obtain ⟨hw, _, hwk, _⟩ := addAll_invariant heap records
  refine ⟨((addAll heap records).mWrapperInstanceToWrapperMetadata.filter
    (isRequested heap t onlyLive)).map Prod.snd, ?_, ?_, ?_⟩
  · exact GetObjectsByType_foldl heap t onlyLive _ out
  · have hnd : (addAll heap records).mWrapperInstanceToWrapperMetadata.Nodup :=
      List.Nodup.of_map Prod.fst hw
    apply List.Nodup.map_on _ (hnd.filter _)
    intro x hx y hy hxy
    have hx2 := (hwk x.1 x.2 (mapFind_eq_some_of_mem _ _ _ hw (List.mem_of_mem_filter hx))).2
    have hy2 := (hwk y.1 y.2 (mapFind_eq_some_of_mem _ _ _ hw (List.mem_of_mem_filter hy))).2
    apply Prod.ext
    · rw [← hx2, ← hy2, hxy]
    · exact hxy
  · intro p
    simp only [List.mem_map, List.mem_filter, mapValues, isRequested, Bool.and_eq_true,
      decide_eq_true_eq, Bool.not_eq_true', Bool.and_eq_false_iff]
    constructor
    · rintro ⟨e, ⟨he, het, hed⟩, hep⟩
      subst hep
      refine ⟨⟨e, he, rfl⟩, het, ?_⟩
      intro hl
      rcases hed with h | h
      · simp [hl] at h
      · exact h
    · rintro ⟨⟨e, he, hep⟩, hpt, hpd⟩
      subst hep
      refine ⟨e, ⟨he, hpt, ?_⟩, rfl⟩
      cases onlyLive with
      | false => exact Or.inl rfl
      | true => exact Or.inr (hpd rfl)

/-! ## Sequences of `GenericWrapObject` calls -/

theorem wrapStep_invariant (state : Heap × DX12WrappedObjectDatabase)
    (seen : List MetadataPtr) (c : WrapCall) (hinv : WrapInvariant state seen)
    (hfresh : c.objectData ∉ seen) :
    WrapInvariant (wrapStep state c) (c.objectData :: seen) := by
  obtain ⟨heap, db⟩ := state
  unfold wrapStep
  cases hreg : mapFind db.mRealInstanceToWrapperMetadata c.ppReal with
  | some p0 =>
    simp only []
    rw [GenericWrapObject_of_registered _ _ _ _ _ _ _ _ p0 hreg]
    intro k p hf
    exact ⟨List.mem_cons_of_mem _ (hinv k p hf).1, (hinv k p hf).2⟩
  | none =>
    simp only []
    rw [GenericWrapObject_of_unregistered _ _ _ _ _ _ _ _ hreg]
    intro k p hf
    simp only at hf ⊢
    by_cases hk : c.pWrapper = k
    · rw [hk, mapFind_mapAssign_same] at hf
      simp only [Option.some.injEq] at hf
      subst hf
      refine ⟨List.mem_cons_self _ _, ?_⟩
      simp [Heap.store_same, IDX12InstanceBase.SetParentDeviceHandle,
        IDX12InstanceBase.create, mapFind_mapAssign_same]
    · rw [mapFind_mapAssign_other _ _ _ _ hk] at hf
      obtain ⟨hps, hpr⟩ := hinv k p hf
      have hne : p ≠ c.objectData := fun h => hfresh (h ▸ hps)
      rw [Heap.store_other _ _ _ _ hne, Heap.store_other _ _ _ _ hne]
      have hkey : c.ppReal ≠ (heap p).mRuntimeInstance := by
        intro h
        simp only at hpr
        rw [← h, hreg] at hpr
        exact Option.noConfusion hpr
      rw [mapFind_mapAssign_other _ _ _ _ hkey]
      exact ⟨List.mem_cons_of_mem _ hps, hpr⟩

theorem foldl_wrapStep_invariant (calls : List WrapCall) :
    ∀ (state : Heap × DX12WrappedObjectDatabase) (seen : List MetadataPtr),
      WrapInvariant state seen →
      (calls.map WrapCall.objectData).Nodup →
      (∀ c ∈ calls, c.objectData ∉ seen) →
      ∃ seenAfter, WrapInvariant (calls.foldl wrapStep state) seenAfter := by
  induction calls with
  | nil =>
    intro state seen hinv _ _
    exact ⟨seen, hinv⟩
  | cons c rest ih =>
    intro state seen hinv hnd hfresh
    simp only [List.map_cons, List.nodup_cons] at hnd
    rw [List.foldl_cons]
    apply ih (wrapStep state c) (c.objectData :: seen)
      (wrapStep_invariant state seen c hinv (hfresh c (List.mem_cons_self _ _))) hnd.2
    intro d hd hmem
    rcases List.mem_cons.1 hmem with h | h
    · exact hnd.1 (List.mem_map.2 ⟨d, hd, h⟩)
    · exact hfresh d (List.mem_cons_of_mem _ hd) h

/-- C2.  After any sequence of registrations (`GenericWrapObject` calls on a new
database) with pairwise distinct real handles, each given a new wrapper handle and a new
metadata object, for every registered wrapper handle `w`: looking up with
`GetWrappedInstance` the runtime instance of the record `GetMetadataObject` returns for
`w` gives that same record.  (The proof uses only that the metadata addresses are
distinct.) -/
theorem C2_identity_bijection (heap : Heap) (calls : List WrapCall)
    (_hreal : (calls.map WrapCall.ppReal).Nodup)
    (_hwrapper : (calls.map WrapCall.pWrapper).Nodup)
    (halloc : (calls.map WrapCall.objectData).Nodup)
    (w : IUnknownPtr)
    (hw : mapContains (wrapAll heap calls).2.mWrapperInstanceToWrapperMetadata w = true) :
    (wrapAll heap calls).2.GetWrappedInstance
        ((wrapAll heap calls).1
          ((wrapAll heap calls).2.GetMetadataObject w).1).GetRuntimeInstance
      = ((wrapAll heap calls).2.GetMetadataObject w).1 := by
  have hempty : WrapInvariant (heap, DX12WrappedObjectDatabase.empty) [] := by
    intro k p hf
    simp [DX12WrappedObjectDatabase.empty, mapFind] at hf
  obtain ⟨seen, hinv⟩ := foldl_wrapStep_invariant calls _ [] hempty halloc (by simp)
  change WrapInvariant (wrapAll heap calls) seen at hinv
  unfold mapContains at hw
  obtain ⟨p, hp⟩ := Option.isSome_iff_exists.1 hw
  have hreal := (hinv w p hp).2
  simp [DX12WrappedObjectDatabase.GetMetadataObject,
    DX12WrappedObjectDatabase.GetWrappedInstance, hp, hreal,
    IDX12InstanceBase.GetRuntimeInstance]

/-- Witness of C2: after the registrations `twoCalls`, the wrapper `20`. -/
theorem C2_identity_bijection_witness :
    mapContains (wrapAll Heap.zero twoCalls).2.mWrapperInstanceToWrapperMetadata 20 = true ∧
    (wrapAll Heap.zero twoCalls).2.GetWrappedInstance
        ((wrapAll Heap.zero twoCalls).1
          ((wrapAll Heap.zero twoCalls).2.GetMetadataObject 20).1).GetRuntimeInstance
      = ((wrapAll Heap.zero twoCalls).2.GetMetadataObject 20).1 :=
  ⟨by decide,
   C2_identity_bijection Heap.zero twoCalls (by decide) (by decide) (by decide) 20
     (by decide)⟩

/-! ## The sample-id counter -/

theorem afterCalls_mSampleIndex (n : Nat) :
    (DX12Interceptor.create.afterCalls n).mSampleIndex = n % SAMPLE_INDEX_RANGE := by
  induction n with
  | zero => simp [DX12Interceptor.afterCalls, DX12Interceptor.create, FIRST_SAMPLE_ID]
  | succ k ih =>
    simp only [DX12Interceptor.afterCalls, DX12Interceptor.GetNextSampleId, ih]
    rw [Nat.add_mod k 1, Nat.add_mod (k % SAMPLE_INDEX_RANGE) 1, Nat.mod_mod]

/-- The id returned after `n` earlier calls in a new session, in closed form. -/
theorem returnedAfter_create (n : Nat) :
    DX12Interceptor.create.returnedAfter n
      = (n + 1) % SAMPLE_INDEX_RANGE % GPA_UINT32_RANGE := by
  simp only [DX12Interceptor.returnedAfter, DX12Interceptor.GetNextSampleId,
    afterCalls_mSampleIndex]
  rw [Nat.add_mod n 1, Nat.add_mod (n % SAMPLE_INDEX_RANGE) 1, Nat.mod_mod]

theorem returnedAfter_create_small (n : Nat) (h : n + 1 < GPA_UINT32_RANGE) :
    DX12Interceptor.create.returnedAfter n = n + 1 := by
  rw [returnedAfter_create]
  have h64 : n + 1 < SAMPLE_INDEX_RANGE :=
    lt_trans h (by unfold GPA_UINT32_RANGE SAMPLE_INDEX_RANGE; norm_num)
  rw [Nat.mod_eq_of_lt h64, Nat.mod_eq_of_lt h]

/-- C9, as amended.  In a session with no reset, every call to `GetNextSampleId` made
while fewer than 2^32 - 1 calls came before it returns a value strictly greater than the
value returned by every earlier call: the returned id is a `gpa_uint32`, which the first
2^32 - 1 calls do not exhaust. -/
theorem C9_sample_ids_increase (m n : Nat) (hmn : m < n) (hn : n + 1 < GPA_UINT32_RANGE) :
    DX12Interceptor.create.returnedAfter m < DX12Interceptor.create.returnedAfter n := by
  rw [returnedAfter_create_small n hn, returnedAfter_create_small m (by omega)]
  omega

/-- Witness of C9: the fourth call returns more than the second. -/
theorem C9_sample_ids_increase_witness :
    DX12Interceptor.create.returnedAfter 1 < DX12Interceptor.create.returnedAfter 3 :=
  C9_sample_ids_increase 1 3 (by decide) (by decide)

/-- C9 as stated fails: the first call of a session returns `1`, and the call made after
2^32 - 1 earlier calls returns `0`, which is not greater. -/
theorem C9_sample_id_wraps :
    DX12Interceptor.create.returnedAfter 0 = 1 ∧
    DX12Interceptor.create.returnedAfter 4294967295 = 0 ∧
    ¬ (DX12Interceptor.create.returnedAfter 0
        < DX12Interceptor.create.returnedAfter 4294967295) := by
  rw [returnedAfter_create, returnedAfter_create]
  decide

/-- C10, as amended.  `ResetSampleIdCounter` sets the sample-id counter back to
`FIRST_SAMPLE_ID`: for every interceptor state and every sequence of `GetNextSampleId`
calls followed by `ResetSampleIdCounter`, the next `GetNextSampleId` returns
`FIRST_SAMPLE_ID + 1`, the value that the first call of a new session returns. -/
theorem C10_reset_restarts_sample_ids (self : DX12Interceptor) (n : Nat) :
    ((self.afterCalls n).ResetSampleIdCounter).mSampleIndex = FIRST_SAMPLE_ID ∧
    (((self.afterCalls n).ResetSampleIdCounter).GetNextSampleId).1 = FIRST_SAMPLE_ID + 1 ∧
    (((self.afterCalls n).ResetSampleIdCounter).GetNextSampleId).1
      = DX12Interceptor.create.returnedAfter 0 := by
  refine ⟨rfl, ?_, ?_⟩ <;>
    simp [DX12Interceptor.ResetSampleIdCounter, DX12Interceptor.GetNextSampleId,
      DX12Interceptor.returnedAfter, DX12Interceptor.afterCalls, DX12Interceptor.create,
      FIRST_SAMPLE_ID, SAMPLE_INDEX_RANGE, GPA_UINT32_RANGE]

/-- C10 as stated fails: after two calls (returning `1` and `2`) and a reset, the next
call returns `1`, which is not greater than the values returned before the reset. -/
theorem C10_reset_repeats_sample_id :
    DX12Interceptor.create.returnedAfter 0 = 1 ∧
    DX12Interceptor.create.returnedAfter 1 = 2 ∧
    (((DX12Interceptor.create.afterCalls 2).ResetSampleIdCounter).GetNextSampleId).1 = 1 ∧
    ¬ (DX12Interceptor.create.returnedAfter 1
        < (((DX12Interceptor.create.afterCalls 2).ResetSampleIdCounter).GetNextSampleId).1) := by
  decide

/-! ## Lemmas on references into containers -/

theorem mapFind_mapModify_same {β : Type} (m : List (Nat × β)) (key : Nat) (f : β → β) :
    mapFind (mapModify m key f) key = (mapFind m key).map f := by
  induction m with
  | nil => simp [mapModify, mapFind]
  | cons e rest ih =>
    obtain ⟨k, v⟩ := e
    by_cases h : k = key
    · simp [mapModify, mapFind, h]
    · simp [mapModify, mapFind, h, ih]

theorem mapFind_mapModify_other {β : Type} (m : List (Nat × β)) (key other : Nat)
    (f : β → β) (h : key ≠ other) :
    mapFind (mapModify m key f) other = mapFind m other := by
  induction m with
  | nil => simp [mapModify, mapFind]
  | cons e rest ih =>
    obtain ⟨k, v⟩ := e
    by_cases hk : k = key
    · subst hk
      simp [mapModify, mapFind, h]
    · by_cases ho : k = other
      · subst ho
        simp [mapModify, mapFind, hk]
      · simp [mapModify, mapFind, hk, ho, ih]

theorem mapFind_mapSubscript_same {β : Type} (m : List (Nat × β)) (key : Nat) (dflt : β) :
    mapFind (mapSubscript m key dflt) key = some ((mapFind m key).getD dflt) := by
  unfold mapSubscript
  cases h : mapFind m key with
  | none => simp [mapFind_mapAssign_same]
  | some v => simp [h]

theorem mapFind_mapSubscript_other {β : Type} (m : List (Nat × β)) (key other : Nat)
    (dflt : β) (h : key ≠ other) :
    mapFind (mapSubscript m key dflt) other = mapFind m other := by
  unfold mapSubscript
  cases hf : mapFind m key with
  | none => simp [mapFind_mapAssign_other _ _ _ _ h]
  | some v => simp

theorem listModify_append_length {α : Type} (l : List α) (e : α) (f : α → α) :
    listModify (l ++ [e]) l.length f = l ++ [f e] := by
  induction l with
  | nil => simp [listModify]
  | cons a rest ih => simp [listModify, ih]

/-! ## The per-frame sample state -/

/-- C11.  For every interceptor state, after `ResetSampleIdCounter` the per-thread sample
map `mSampleIdMap` and the per-command-list sample-count map `mSamplesPerCommandList` are
both empty. -/
theorem C11_reset_clears_frame_state (self : DX12Interceptor) :
    self.ResetSampleIdCounter.mSampleIdMap = [] ∧
    self.ResetSampleIdCounter.mSamplesPerCommandList = [] := by
  simp [DX12Interceptor.ResetSampleIdCounter]

theorem SetNextSampleId_find (self : DX12Interceptor) (t : Nat) :
    mapFind (self.SetNextSampleId t).2.mSampleIdMap t
      = some { mSampleId := (self.GetNextSampleId).1, mbBeginSampleSuccessful := false } := by
  simp [DX12Interceptor.SetNextSampleId, mapFind_mapModify_same, mapFind_mapSubscript_same]

theorem SetNextSampleId_find_other (self : DX12Interceptor) (t other : Nat) (h : t ≠ other) :
    mapFind (self.SetNextSampleId t).2.mSampleIdMap other = mapFind self.mSampleIdMap other := by
  simp [DX12Interceptor.SetNextSampleId, mapFind_mapModify_other _ _ _ _ h,
    mapFind_mapSubscript_other _ _ _ _ h, DX12Interceptor.GetNextSampleId]

/-- C12.  For every interceptor state and thread id `t`, `SetNextSampleId` on `t` returns
the id that `GetNextSampleId` allocates, leaves the entry of `t` in `mSampleIdMap` holding
exactly that id with `mbBeginSampleSuccessful = false`, whatever the entry held before,
and leaves the entry of every other thread as it was. -/
theorem C12_SetNextSampleId (self : DX12Interceptor) (t : Nat) :
    (self.SetNextSampleId t).1 = (self.GetNextSampleId).1 ∧
    (self.SetNextSampleId t).2.mSampleIndex = (self.GetNextSampleId).2.mSampleIndex ∧
    mapFind (self.SetNextSampleId t).2.mSampleIdMap t
      = some { mSampleId := (self.GetNextSampleId).1, mbBeginSampleSuccessful := false } ∧
    (∀ other, other ≠ t →
      mapFind (self.SetNextSampleId t).2.mSampleIdMap other
        = mapFind self.mSampleIdMap other) := by
  refine ⟨rfl, rfl, SetNextSampleId_find self t, ?_⟩
  intro other h
  exact SetNextSampleId_find_other self t other (Ne.symm h)

/-! ## `PreCall` and `PostCall`: unprofiled calls and the profiling lock -/

/-- C16.  For every call whose function id is not on the profiling allow-list, or made
while the collect-timing flag is off: `PreCall` leaves the interceptor as it was (the
sample-id counter, the per-thread sample map, the per-command-list counters, the
profiling lock, and no call into the timing backend) and only notifies the trace layer
with `BeforeAPICall`; `PostCall` logs the call exactly once, as a record without sample
id and without timing result, and leaves the interceptor as it was (no `GPA_EndSample`,
the profiling lock untouched). -/
theorem C16_unprofiled_calls (s : Server) (threadId : Nat) (inWrappedInterface : IUnknownPtr)
    (inFunctionId : FuncId) (mRealGraphicsCommandList : Nat)
    (selectStatus beginStatus endSampleStatus : GPA_Status)
    (inArgumentString : String) (inReturnValue : Int)
    (hnot : s.interceptor.ShouldCollectGPUTime = false ∨
      s.traceAnalyzerLayer.ShouldProfileFunction inFunctionId = false) :
    (PreCall s threadId inWrappedInterface inFunctionId mRealGraphicsCommandList
        selectStatus beginStatus).interceptor = s.interceptor ∧
    (PreCall s threadId inWrappedInterface inFunctionId mRealGraphicsCommandList
        selectStatus beginStatus).traceAnalyzerLayer = s.traceAnalyzerLayer.BeforeAPICall ∧
    (PostCall s threadId inWrappedInterface inFunctionId inArgumentString inReturnValue
        endSampleStatus).interceptor = s.interceptor ∧
    (PostCall s threadId inWrappedInterface inFunctionId inArgumentString inReturnValue
        endSampleStatus).traceAnalyzerLayer =
      { s.traceAnalyzerLayer with
        mLoggedCalls := s.traceAnalyzerLayer.mLoggedCalls ++
          [{ mWrappedInterface := inWrappedInterface
             mFunctionId := inFunctionId
             mArgumentString := inArgumentString
             mReturnValue := inReturnValue
             mSampleId := none
             mbProfilerResultStored := false }] } := by
  have hoff : (s.interceptor.ShouldCollectGPUTime &&
      s.traceAnalyzerLayer.ShouldProfileFunction inFunctionId) = false := by
    rcases hnot with h | h <;> simp [h]
  have hoffLogged : (s.interceptor.ShouldCollectGPUTime &&
      (s.traceAnalyzerLayer.LogAPICall inWrappedInterface inFunctionId inArgumentString
        inReturnValue).2.ShouldProfileFunction inFunctionId) = false := hoff
  have hpost : PostCall s threadId inWrappedInterface inFunctionId inArgumentString
      inReturnValue endSampleStatus =
      { s with traceAnalyzerLayer := (s.traceAnalyzerLayer.LogAPICall inWrappedInterface
          inFunctionId inArgumentString inReturnValue).2 } := by
    unfold PostCall
    simp only [hoffLogged, Bool.false_eq_true, if_false]
  refine ⟨?_, ?_, ?_, ?_⟩
  · simp [PreCall, hoff]
  · simp [PreCall, hoff]
  · rw [hpost]
  · rw [hpost]
    rfl

/-- Witness of C16: the function id `8` is not on the allow-list of `profilingServer`. -/
theorem C16_unprofiled_calls_witness :
    (PreCall profilingServer 1 50 8 60 0 0).interceptor = profilingServer.interceptor ∧
    (PostCall profilingServer 1 50 8 "" 0 0).interceptor = profilingServer.interceptor :=
  ⟨(C16_unprofiled_calls profilingServer 1 50 8 60 0 0 0 "" 0 (Or.inr (by decide))).1,
   (C16_unprofiled_calls profilingServer 1 50 8 60 0 0 0 "" 0 (Or.inr (by decide))).2.2.1⟩

theorem SetNextSampleId_mutex (self : DX12Interceptor) (t : Nat) :
    (self.SetNextSampleId t).2.mGPAPrePostMatcherMutex = self.mGPAPrePostMatcherMutex := by
  simp [DX12Interceptor.SetNextSampleId, DX12Interceptor.GetNextSampleId]

theorem PreCall_sample_mutex (s : Server) (threadId : Nat) (w : IUnknownPtr) (real : Nat)
    (selectStatus beginStatus : GPA_Status) :
    (PreCall_sample s threadId w real selectStatus beginStatus).interceptor.mGPAPrePostMatcherMutex
      = s.interceptor.mGPAPrePostMatcherMutex := by
  unfold PreCall_sample
  simp only []
  split <;> split <;>
    simp [DX12Interceptor.SwitchGPAContext, SetNextSampleId_mutex, apply_ite]

theorem PostCall_sample_mutex (s : Server) (threadId pNewEntry : Nat)
    (endSampleStatus : GPA_Status) :
    (PostCall_sample s threadId pNewEntry endSampleStatus).interceptor.mGPAPrePostMatcherMutex
      = s.interceptor.mGPAPrePostMatcherMutex := by
  unfold PostCall_sample
  split
  · split
    · split <;> rfl
    · rfl
  · rfl

/-- C17.  For every profiled `PreCall`/`PostCall` pair (same function id; the
collect-timing flag is on and the function id on the allow-list at both calls), whatever
the wrapped interface, the statuses of the backend and the sample map that `PostCall`
finds (the entry of the thread may say that `BeginSample` failed or succeeded, or be
missing): `PreCall` acquires the profiling lock exactly once, `PostCall` releases it
exactly once, and the lock state after the pair equals the state before it.  Here
`afterCall` is the state in which `PostCall` runs; the API call in between leaves the
lock as `PreCall` left it. -/
theorem C17_profiling_lock_balance (s afterCall : Server) (threadId : Nat)
    (inWrappedInterface : IUnknownPtr) (inFunctionId : FuncId)
    (mRealGraphicsCommandList : Nat) (selectStatus beginStatus endSampleStatus : GPA_Status)
    (inArgumentString : String) (inReturnValue : Int)
    (hcollect : s.interceptor.ShouldCollectGPUTime = true)
    (hprofile : s.traceAnalyzerLayer.ShouldProfileFunction inFunctionId = true)
    (hcollectAfter : afterCall.interceptor.ShouldCollectGPUTime = true)
    (hprofileAfter : afterCall.traceAnalyzerLayer.ShouldProfileFunction inFunctionId = true)
    (hlock : afterCall.interceptor.mGPAPrePostMatcherMutex =
      (PreCall s threadId inWrappedInterface inFunctionId mRealGraphicsCommandList
        selectStatus beginStatus).interceptor.mGPAPrePostMatcherMutex) :
    (PreCall s threadId inWrappedInterface inFunctionId mRealGraphicsCommandList
        selectStatus beginStatus).interceptor.mGPAPrePostMatcherMutex
      = s.interceptor.mGPAPrePostMatcherMutex + 1 ∧
    (PostCall afterCall threadId inWrappedInterface inFunctionId inArgumentString
        inReturnValue endSampleStatus).interceptor.mGPAPrePostMatcherMutex
      = afterCall.interceptor.mGPAPrePostMatcherMutex - 1 ∧
    (PostCall afterCall threadId inWrappedInterface inFunctionId inArgumentString
        inReturnValue endSampleStatus).interceptor.mGPAPrePostMatcherMutex
      = s.interceptor.mGPAPrePostMatcherMutex := by
  have hpre : (PreCall s threadId inWrappedInterface inFunctionId mRealGraphicsCommandList
        selectStatus beginStatus).interceptor.mGPAPrePostMatcherMutex
      = s.interceptor.mGPAPrePostMatcherMutex + 1 := by
    by_cases hnull : inWrappedInterface = NULL
    · simp [PreCall, hcollect, hprofile, hnull, DX12Interceptor.LockGPA]
    · simp [PreCall, hcollect, hprofile, hnull, PreCall_sample_mutex,
        DX12Interceptor.LockGPA]
  have hprofileLogged :
      (afterCall.traceAnalyzerLayer.LogAPICall inWrappedInterface inFunctionId
        inArgumentString inReturnValue).2.ShouldProfileFunction inFunctionId = true :=
    hprofileAfter
  have hpost : (PostCall afterCall threadId inWrappedInterface inFunctionId inArgumentString
        inReturnValue endSampleStatus).interceptor.mGPAPrePostMatcherMutex
      = afterCall.interceptor.mGPAPrePostMatcherMutex - 1 := by
    simp [PostCall, hcollectAfter, hprofileLogged, PostCall_sample_mutex,
      DX12Interceptor.UnlockGPA]
  refine ⟨hpre, hpost, ?_⟩
  rw [hpost, hlock, hpre]
  simp

/-- Witness of C17: the pair `goodCall` on `profilingServer`, whose `PostCall` runs in
the state that `PreCall` left. -/
theorem C17_profiling_lock_balance_witness :
    (PostCall (PreCall profilingServer 1 50 7 60 0 0) 1 50 7 "" 0
        0).interceptor.mGPAPrePostMatcherMutex
      = profilingServer.interceptor.mGPAPrePostMatcherMutex :=
  (C17_profiling_lock_balance profilingServer (PreCall profilingServer 1 50 7 60 0 0)
    1 50 7 60 0 0 0 "" 0 (by decide) (by decide) (by decide) (by decide) rfl).2.2

/-! ## Installing and removing the hooks -/

/-- C18 fails on the code.  When the `Attach` of the first hook,
`D3D12GetDebugInterface`, fails and the later hooks attach, `HookInterceptor` returns
`true`, and so does `Initialize` (in both builds, the timing backend loading); when only
`EndHook` fails, `HookInterceptor` returns `true` as well. -/
theorem C18_HookInterceptor_true_after_failure :
    firstAttachFails.Attach EntryPoint.D3D12GetDebugInterface = false ∧
    (HookInterceptor firstAttachFails).bThisInitialized = true ∧
    Initialize false firstAttachFails true = true ∧
    Initialize true firstAttachFails true = true ∧
    endHookFails.EndHook ≠ NO_ERROR ∧
    (HookInterceptor endHookFails).bThisInitialized = true := by
  decide

/-- C19 fails on the code.  `HookInterceptor` attaches the four hooks; `Shutdown`, every
external call succeeding, detaches `D3D12CreateDevice` once and
`D3D12SerializeRootSignature` twice, and never `D3D12GetDebugInterface` or
`D3D12CreateRootSignatureDeserializer`. -/
theorem C19_Shutdown_detach_calls :
    (HookInterceptor allHooked).attachCalls =
      [EntryPoint.D3D12GetDebugInterface, EntryPoint.D3D12CreateDevice,
        EntryPoint.D3D12SerializeRootSignature,
        EntryPoint.D3D12CreateRootSignatureDeserializer] ∧
    (Shutdown allDetached).2 =
      [EntryPoint.D3D12CreateDevice, EntryPoint.D3D12SerializeRootSignature,
        EntryPoint.D3D12SerializeRootSignature] ∧
    EntryPoint.D3D12GetDebugInterface ∉ (Shutdown allDetached).2 ∧
    EntryPoint.D3D12CreateRootSignatureDeserializer ∉ (Shutdown allDetached).2 := by
  decide

/-- C20 fails on the code.  When the `Detach` of the `D3D12CreateDevice` hook fails,
`UnhookInterceptor` returns `false` and `Shutdown` returns `true`. -/
theorem C20_Shutdown_true_after_failed_detach :
    (UnhookInterceptor detachFails).bDetachSuccessful = false ∧
    (Shutdown detachFails).1 = true := by
  decide

/-! ## `PreCall` and `PostCall`: the sample of a profiled call -/

theorem PreCall_sample_gpa (s : Server) (threadId : Nat) (w : IUnknownPtr) (real : Nat)
    (selectStatus beginStatus : GPA_Status)
    (hcollect : s.interceptor.ShouldCollectGPUTime = true) :
    (PreCall_sample s threadId w real selectStatus beginStatus).interceptor.mGPALoader
      = s.interceptor.mGPALoader ++
        [GPACall.GPA_SelectContext real selectStatus,
          GPACall.GPA_BeginSample (s.interceptor.GetNextSampleId).1 beginStatus] := by
  unfold DX12Interceptor.ShouldCollectGPUTime at hcollect
  unfold PreCall_sample
  simp only []
  split <;> split <;>
    simp [DX12Interceptor.SwitchGPAContext, DX12Interceptor.SetNextSampleId,
      DX12Interceptor.GetNextSampleId, DX12Interceptor.ShouldCollectGPUTime, hcollect]

theorem PreCall_sample_entry (s : Server) (threadId : Nat) (w : IUnknownPtr) (real : Nat)
    (selectStatus beginStatus : GPA_Status) :
    mapFind (PreCall_sample s threadId w real selectStatus beginStatus).interceptor.mSampleIdMap
        threadId
      = some { mSampleId := (s.interceptor.GetNextSampleId).1
               mbBeginSampleSuccessful := decide (beginStatus = GPA_STATUS_OK) } := by
  unfold PreCall_sample
  simp only []
  split <;> split <;>
    simp [DX12Interceptor.SwitchGPAContext, DX12Interceptor.SetNextSampleId,
      DX12Interceptor.GetNextSampleId, mapFind_mapModify_same, mapFind_mapSubscript_same,
      apply_ite, *]

theorem PreCall_sample_config (s : Server) (threadId : Nat) (w : IUnknownPtr) (real : Nat)
    (selectStatus beginStatus : GPA_Status) :
    (PreCall_sample s threadId w real selectStatus beginStatus).interceptor.mbProfilerEnabled
      = s.interceptor.mbProfilerEnabled ∧
    (PreCall_sample s threadId w real selectStatus
      beginStatus).traceAnalyzerLayer.mProfiledFunctions
      = s.traceAnalyzerLayer.mProfiledFunctions ∧
    (PreCall_sample s threadId w real selectStatus beginStatus).traceAnalyzerLayer.mLoggedCalls
      = s.traceAnalyzerLayer.mLoggedCalls := by
  unfold PreCall_sample
  simp only []
  refine ⟨?_, ?_, ?_⟩ <;> split <;> split <;>
    simp [DX12Interceptor.SwitchGPAContext, DX12Interceptor.SetNextSampleId,
      DX12Interceptor.GetNextSampleId, DX12TraceAnalyzerLayer.AddSampleToCommandList,
      apply_ite]

/-- What a profiled `PreCall` with a wrapped interface leaves behind. -/
theorem PreCall_of_profiled (s : Server) (threadId : Nat) (w : IUnknownPtr) (f : FuncId)
    (real : Nat) (selectStatus beginStatus : GPA_Status)
    (hcollect : s.interceptor.ShouldCollectGPUTime = true)
    (hprofile : s.traceAnalyzerLayer.ShouldProfileFunction f = true)
    (hwrapped : w ≠ NULL) :
    (PreCall s threadId w f real selectStatus beginStatus).interceptor.mGPALoader
      = s.interceptor.mGPALoader ++
        [GPACall.GPA_SelectContext real selectStatus,
          GPACall.GPA_BeginSample (s.interceptor.GetNextSampleId).1 beginStatus] ∧
    mapFind (PreCall s threadId w f real selectStatus beginStatus).interceptor.mSampleIdMap
        threadId
      = some { mSampleId := (s.interceptor.GetNextSampleId).1
               mbBeginSampleSuccessful := decide (beginStatus = GPA_STATUS_OK) } ∧
    (PreCall s threadId w f real selectStatus beginStatus).interceptor.ShouldCollectGPUTime
      = true ∧
    (PreCall s threadId w f real selectStatus
      beginStatus).traceAnalyzerLayer.ShouldProfileFunction f = true ∧
    (PreCall s threadId w f real selectStatus beginStatus).traceAnalyzerLayer.mLoggedCalls
      = s.traceAnalyzerLayer.mLoggedCalls := by
  have hpre : PreCall s threadId w f real selectStatus beginStatus =
      { PreCall_sample { s with interceptor := s.interceptor.LockGPA } threadId w real
          selectStatus beginStatus with
        traceAnalyzerLayer := (PreCall_sample { s with interceptor := s.interceptor.LockGPA }
          threadId w real selectStatus beginStatus).traceAnalyzerLayer.BeforeAPICall } := by
    unfold PreCall
    simp [hcollect, hprofile, hwrapped]
  have hcfg := PreCall_sample_config { s with interceptor := s.interceptor.LockGPA }
    threadId w real selectStatus beginStatus
  rw [hpre]
  refine ⟨?_, ?_, ?_, ?_, ?_⟩
  · exact PreCall_sample_gpa _ threadId w real selectStatus beginStatus hcollect
  · exact PreCall_sample_entry _ threadId w real selectStatus beginStatus
  · unfold DX12Interceptor.ShouldCollectGPUTime at hcollect ⊢
    simp only []
    rw [hcfg.1]
    exact hcollect
  · unfold DX12TraceAnalyzerLayer.ShouldProfileFunction at hprofile ⊢
    simp only [DX12TraceAnalyzerLayer.BeforeAPICall, decide_eq_true_eq] at hprofile ⊢
    rw [hcfg.2.1]
    exact hprofile
  · simp only [DX12TraceAnalyzerLayer.BeforeAPICall]
    exact hcfg.2.2

/-- What a profiled `PostCall` does when the sample map holds an entry for the thread. -/
theorem PostCall_of_profiled (u : Server) (threadId : Nat) (w : IUnknownPtr) (f : FuncId)
    (args : String) (ret : Int) (endSampleStatus : GPA_Status) (info : SampleInfo)
    (hcollect : u.interceptor.ShouldCollectGPUTime = true)
    (hprofile : u.traceAnalyzerLayer.ShouldProfileFunction f = true)
    (hentry : mapFind u.interceptor.mSampleIdMap threadId = some info) :
    (PostCall u threadId w f args ret endSampleStatus).interceptor.mGPALoader
      = u.interceptor.mGPALoader ++
        (if info.mbBeginSampleSuccessful = true then [GPACall.GPA_EndSample endSampleStatus]
          else []) ∧
    (PostCall u threadId w f args ret endSampleStatus).traceAnalyzerLayer.mLoggedCalls
      = u.traceAnalyzerLayer.mLoggedCalls ++
        [{ mWrappedInterface := w
           mFunctionId := f
           mArgumentString := args
           mReturnValue := ret
           mSampleId :=
             if info.mbBeginSampleSuccessful = true ∧ endSampleStatus = GPA_STATUS_OK then
               some info.mSampleId
             else none
           mbProfilerResultStored :=
             decide (info.mbBeginSampleSuccessful = true ∧
               endSampleStatus = GPA_STATUS_OK) }] := by
  have hprofileLogged :
      (u.traceAnalyzerLayer.LogAPICall w f args ret).2.ShouldProfileFunction f = true :=
    hprofile
  unfold PostCall
  simp only [hcollect, hprofileLogged, Bool.and_self, if_true]
  unfold PostCall_sample
  simp only [hentry]
  by_cases hb : info.mbBeginSampleSuccessful = true
  · by_cases he : endSampleStatus = GPA_STATUS_OK
    · simp [hb, he, DX12TraceAnalyzerLayer.LogAPICall, DX12TraceAnalyzerLayer.assignSampleId,
        DX12TraceAnalyzerLayer.StoreProfilerResult, DX12Interceptor.UnlockGPA,
        listModify_append_length]
    · simp [hb, he, DX12TraceAnalyzerLayer.LogAPICall, DX12Interceptor.UnlockGPA]
  · simp [hb, DX12TraceAnalyzerLayer.LogAPICall, DX12Interceptor.UnlockGPA]

/-- The record of a profiled pair whose wrapped interface is not `NULL`, with nothing
between its `PreCall` and its `PostCall`: `PreCall` reserves and begins the sample `S1`,
and `PostCall` logs exactly one record, which carries a sample id if and only if
`BeginSample` and `EndSample` both returned `GPA_STATUS_OK`; that id is `S1`, and a timing
result is stored for the record in exactly that case. -/
theorem logged_record_of_wrapped_pair (s : Server) (p : CallPair)
    (hcollect : s.interceptor.ShouldCollectGPUTime = true)
    (hprofile : s.traceAnalyzerLayer.ShouldProfileFunction p.inFunctionId = true)
    (hwrapped : p.inWrappedInterface ≠ NULL) :
    (PreCall s p.threadId p.inWrappedInterface p.inFunctionId p.mRealGraphicsCommandList
        p.selectStatus p.beginStatus).interceptor.mGPALoader
      = s.interceptor.mGPALoader ++
        [GPACall.GPA_SelectContext p.mRealGraphicsCommandList p.selectStatus,
          GPACall.GPA_BeginSample (s.interceptor.SetNextSampleId p.threadId).1
            p.beginStatus] ∧
    (runPair s p).traceAnalyzerLayer.mLoggedCalls
      = s.traceAnalyzerLayer.mLoggedCalls ++
        [{ mWrappedInterface := p.inWrappedInterface
           mFunctionId := p.inFunctionId
           mArgumentString := p.inArgumentString
           mReturnValue := p.inReturnValue
           mSampleId :=
             if p.beginStatus = GPA_STATUS_OK ∧ p.endSampleStatus = GPA_STATUS_OK then
               some (s.interceptor.SetNextSampleId p.threadId).1
             else none
           mbProfilerResultStored :=
             decide (p.beginStatus = GPA_STATUS_OK ∧
               p.endSampleStatus = GPA_STATUS_OK) }] := by
  obtain ⟨hgpa, hentry, hc, hp, hlog⟩ :=
    PreCall_of_profiled s p.threadId p.inWrappedInterface p.inFunctionId
      p.mRealGraphicsCommandList p.selectStatus p.beginStatus hcollect hprofile hwrapped
  refine ⟨hgpa, ?_⟩
  unfold runPair
  rw [(PostCall_of_profiled _ p.threadId p.inWrappedInterface p.inFunctionId
    p.inArgumentString p.inReturnValue p.endSampleStatus _ hc hp hentry).2, hlog]
  simp [DX12Interceptor.SetNextSampleId]

/-- The record of the pair `goodCall` on `profilingServer` carries the sample id `1`. -/
theorem logged_record_of_goodCall :
    (runPair profilingServer goodCall).traceAnalyzerLayer.mLoggedCalls
      = [{ mWrappedInterface := 50, mFunctionId := 7, mArgumentString := "",
           mReturnValue := 0, mSampleId := some 1, mbProfilerResultStored := true }] :=
  (logged_record_of_wrapped_pair profilingServer goodCall (by decide) (by decide)
    (by decide)).2

/-- C15 fails on the code.  After the profiled pair `goodCall` on thread `1`, the pair
`nullCall` on the same thread is profiled too (GPU time is collected and its function id
is on the allow-list) and has a `NULL` wrapped interface.  Its `PreCall` reserves no
sample id and invokes no `GPA_BeginSample`; the record its `PostCall` logs carries all the
same a sample id, the id `1` of the earlier pair, and a stored timing result.  The record
is the same when the backend is set to fail `BeginSample`. -/
theorem C15_stale_sample_id_on_record :
    (PreCall (runPair profilingServer goodCall) 1 NULL 7 0 0 0).interceptor.mSampleIndex
      = (runPair profilingServer goodCall).interceptor.mSampleIndex ∧
    (PreCall (runPair profilingServer goodCall) 1 NULL 7 0 0 0).interceptor.mGPALoader
      = (runPair profilingServer goodCall).interceptor.mGPALoader ∧
    (runPair (runPair profilingServer goodCall) nullCall).traceAnalyzerLayer.mLoggedCalls
      = [{ mWrappedInterface := 50, mFunctionId := 7, mArgumentString := "",
           mReturnValue := 0, mSampleId := some 1, mbProfilerResultStored := true },
         { mWrappedInterface := NULL, mFunctionId := 7, mArgumentString := "",
           mReturnValue := 0, mSampleId := some 1, mbProfilerResultStored := true }] ∧
    (runPair (runPair profilingServer goodCall)
        { nullCall with beginStatus := 1 }).traceAnalyzerLayer.mLoggedCalls
      = [{ mWrappedInterface := 50, mFunctionId := 7, mArgumentString := "",
           mReturnValue := 0, mSampleId := some 1, mbProfilerResultStored := true },
         { mWrappedInterface := NULL, mFunctionId := 7, mArgumentString := "",
           mReturnValue := 0, mSampleId := some 1, mbProfilerResultStored := true }] := by
  decide

/-- C13 fails on the code.  After the profiled pair `goodCall` on thread `1`, whose
`BeginSample` succeeded, the pair `nullCall` on the same thread has a `NULL` wrapped
interface: its `PreCall` makes no call into the timing backend, and its `PostCall`
invokes `GPA_EndSample` all the same, from the entry the earlier pair left in the sample
map. -/
theorem C13_EndSample_without_BeginSample :
    (PreCall (runPair profilingServer goodCall) 1 NULL 7 0 0 0).interceptor.mGPALoader
      = (runPair profilingServer goodCall).interceptor.mGPALoader ∧
    (PostCall (PreCall (runPair profilingServer goodCall) 1 NULL 7 0 0 0)
        1 NULL 7 "" 0 0).interceptor.mGPALoader
      = (PreCall (runPair profilingServer goodCall) 1 NULL 7 0 0 0).interceptor.mGPALoader
        ++ [GPACall.GPA_EndSample GPA_STATUS_OK] ∧
    (runPair (runPair profilingServer goodCall) nullCall).interceptor.mGPALoader
      = [GPACall.GPA_SelectContext 60 0, GPACall.GPA_BeginSample 1 0,
          GPACall.GPA_EndSample 0, GPACall.GPA_EndSample 0] := by
  decide

/-! ## Bracket balance over sequences of calls -/

theorem bracketsBalanced_append (l m : List GPACall) :
    ∀ sampleOpen : Bool, bracketsBalanced sampleOpen l = true →
      bracketsBalanced sampleOpen (l ++ m) = bracketsBalanced false m := by
  induction l with
  | nil =>
    intro sampleOpen h
    cases sampleOpen with
    | false => rfl
    | true => simp [bracketsBalanced] at h
  | cons c rest ih =>
    intro sampleOpen h
    cases c with
    | GPA_SelectContext ctx status =>
      simp only [List.cons_append, bracketsBalanced] at h ⊢
      exact ih sampleOpen h
    | GPA_BeginSample id status =>
      simp only [List.cons_append, bracketsBalanced, Bool.and_eq_true] at h ⊢
      have hrest := ih _ h.2
      simp only [List.append_eq]
      rw [hrest, h.1]
      simp
    | GPA_EndSample status =>
      simp only [List.cons_append, bracketsBalanced, Bool.and_eq_true] at h ⊢
      have hrest := ih _ h.2
      simp only [List.append_eq]
      rw [hrest, h.1]
      simp

theorem PreCall_of_unprofiled (s : Server) (threadId : Nat) (w : IUnknownPtr) (f : FuncId)
    (real : Nat) (selectStatus beginStatus : GPA_Status)
    (hoff : (s.interceptor.ShouldCollectGPUTime &&
      s.traceAnalyzerLayer.ShouldProfileFunction f) = false) :
    PreCall s threadId w f real selectStatus beginStatus =
      { s with traceAnalyzerLayer := s.traceAnalyzerLayer.BeforeAPICall } := by
  unfold PreCall
  simp only [hoff, Bool.false_eq_true, if_false]

theorem PostCall_of_unprofiled (s : Server) (threadId : Nat) (w : IUnknownPtr) (f : FuncId)
    (args : String) (ret : Int) (endSampleStatus : GPA_Status)
    (hoff : (s.interceptor.ShouldCollectGPUTime &&
      s.traceAnalyzerLayer.ShouldProfileFunction f) = false) :
    PostCall s threadId w f args ret endSampleStatus =
      { s with traceAnalyzerLayer := (s.traceAnalyzerLayer.LogAPICall w f args ret).2 } := by
  have hoffLogged : (s.interceptor.ShouldCollectGPUTime &&
      (s.traceAnalyzerLayer.LogAPICall w f args ret).2.ShouldProfileFunction f) = false := hoff
  unfold PostCall
  simp only [hoffLogged, Bool.false_eq_true, if_false]

/-- A pair with a wrapped interface keeps the calls into the backend bracketed. -/
theorem runPair_balanced (s : Server) (p : CallPair)
    (hbalanced : bracketsBalanced false s.interceptor.mGPALoader = true)
    (hwrapped : p.inWrappedInterface ≠ NULL) :
    bracketsBalanced false (runPair s p).interceptor.mGPALoader = true := by
  unfold runPair
  cases hon : (s.interceptor.ShouldCollectGPUTime &&
      s.traceAnalyzerLayer.ShouldProfileFunction p.inFunctionId) with
  | false =>
    rw [PreCall_of_unprofiled s _ _ _ _ _ _ hon,
      PostCall_of_unprofiled
        { s with traceAnalyzerLayer := s.traceAnalyzerLayer.BeforeAPICall } _ _ _ _ _ _ hon]
    exact hbalanced
  | true =>
    simp only [Bool.and_eq_true] at hon
    obtain ⟨hgpa, hentry, hc, hp, _⟩ :=
      PreCall_of_profiled s p.threadId p.inWrappedInterface p.inFunctionId
        p.mRealGraphicsCommandList p.selectStatus p.beginStatus hon.1 hon.2 hwrapped
    rw [(PostCall_of_profiled _ p.threadId p.inWrappedInterface p.inFunctionId
      p.inArgumentString p.inReturnValue p.endSampleStatus _ hc hp hentry).1, hgpa,
      List.append_assoc, bracketsBalanced_append _ _ false hbalanced]
    by_cases hb : p.beginStatus = GPA_STATUS_OK
    · simp [bracketsBalanced, hb]
    · simp [bracketsBalanced, hb]

theorem runEvents_balanced (events : List FrameEvent) :
    ∀ s : Server, bracketsBalanced false s.interceptor.mGPALoader = true →
      (∀ e ∈ events, e.hasWrappedInterface = true) →
      bracketsBalanced false (runEvents s events).interceptor.mGPALoader = true := by
  induction events with
  | nil =>
    intro s h _
    exact h
  | cons e rest ih =>
    intro s h hw
    unfold runEvents
    rw [List.foldl_cons]
    apply ih
    · cases e with
      | call p =>
        have hp := hw (FrameEvent.call p) (List.mem_cons_self _ _)
        simp only [FrameEvent.hasWrappedInterface, decide_eq_true_eq] at hp
        exact runPair_balanced s p h hp
      | newFrame => exact h
    · intro e2 he2
      exact hw e2 (List.mem_cons_of_mem _ he2)

/-- C14, as amended.  In the `USE_GPA_PROFILING` build, over every sequence of
`PreCall`/`PostCall` pairs whose wrapped interface is not `NULL`, with
`ResetSampleIdCounter` called only between pairs (never between a `PreCall` and its
`PostCall`), the calls into the timing backend stay bracketed: after every `BeginSample`
that succeeded exactly one `GPA_EndSample` is invoked before the next `BeginSample` (the
one of the next `SetNextSampleId`), and none is invoked after a `BeginSample` that
failed. -/
theorem C14_bracket_balance (s : Server) (events : List FrameEvent)
    (hbalanced : bracketsBalanced false s.interceptor.mGPALoader = true)
    (hwrapped : ∀ e ∈ events, e.hasWrappedInterface = true) :
    bracketsBalanced false (runEvents s events).interceptor.mGPALoader = true :=
  runEvents_balanced events s hbalanced hwrapped

/-- Witness of C14: two profiled calls with a frame boundary between them. -/
theorem C14_bracket_balance_witness :
    bracketsBalanced false
      (runEvents profilingServer
        [FrameEvent.call goodCall, FrameEvent.newFrame,
          FrameEvent.call goodCall]).interceptor.mGPALoader = true :=
  C14_bracket_balance profilingServer
    [FrameEvent.call goodCall, FrameEvent.newFrame, FrameEvent.call goodCall]
    (by decide) (by decide)

/-- C14 as stated fails: in `interruptedCall` the `BeginSample` of the sample id `1`
succeeded on thread `1`, `ResetSampleIdCounter` ran before `PostCall`, and `PostCall`
invoked no `GPA_EndSample`; the next `PreCall` on the thread reserves and begins its
sample with none invoked in between. -/
theorem C14_no_EndSample_after_reset :
    mapFind (PreCall profilingServer 1 50 7 60 0 0).interceptor.mSampleIdMap 1
      = some { mSampleId := 1, mbBeginSampleSuccessful := true } ∧
    interruptedCall.interceptor.mGPALoader
      = [GPACall.GPA_SelectContext 60 0, GPACall.GPA_BeginSample 1 0] ∧
    (PreCall interruptedCall 1 50 7 60 0 0).interceptor.mGPALoader
      = [GPACall.GPA_SelectContext 60 0, GPACall.GPA_BeginSample 1 0,
          GPACall.GPA_SelectContext 60 0, GPACall.GPA_BeginSample 1 0] ∧
    bracketsBalanced false
      (PreCall interruptedCall 1 50 7 60 0 0).interceptor.mGPALoader = false := by
  decide

/-! ## The hooked entry points -/

/-- C21 fails on the code.  When the real `D3D12CreateRootSignatureDeserializer` fails
with `E_FAIL` and leaves `NULL` in the out pointer, the hook wraps all the same: on a
new database it registers the new wrapper `10` for the "real object" `NULL` in both maps
and hands the wrapper back in the out pointer.  (`Mine_D3D12CreateDevice` leaves the
state as it was for the same outcome.) -/
theorem C21_deserializer_wrapped_after_failure :
    (Mine_D3D12CreateRootSignatureDeserializer HookedState.empty
      failedDeserializerCall).result = E_FAIL ∧
    (Mine_D3D12CreateRootSignatureDeserializer HookedState.empty
      failedDeserializerCall).ppOut = some 10 ∧
    (Mine_D3D12CreateRootSignatureDeserializer HookedState.empty
      failedDeserializerCall).state.db =
      { mWrapperInstanceToWrapperMetadata := [(10, 100)]
        mRealInstanceToWrapperMetadata := [(NULL, 100)] } ∧
    (Mine_D3D12CreateDevice false false HookedState.empty
      { firstDeviceCall with deviceCreateResult := E_FAIL, ppDevice := some NULL }).state.db =
      DX12WrappedObjectDatabase.empty := by
  decide

/-- C22.  For every state and every outcome of the real function, each of the four
hooked entry points returns exactly the `HRESULT` that the real function returned,
whether or not wrapping or profiler creation took place (in both builds, with frame
statistics on or off). -/
theorem C22_return_value_transparency (USE_GPA_PROFILING OptionCollectFrameStats : Bool)
    (st : HookedState) (realResult : HRESULT) (device : CreateDeviceCall)
    (deserializer : CreateDeserializerCall) :
    Mine_D3D12GetDebugInterface realResult = realResult ∧
    (Mine_D3D12CreateDevice USE_GPA_PROFILING OptionCollectFrameStats st device).result
      = device.deviceCreateResult ∧
    Mine_D3D12SerializeRootSignature realResult = realResult ∧
    (Mine_D3D12CreateRootSignatureDeserializer st deserializer).result
      = deserializer.createResult := by
  refine ⟨rfl, ?_, rfl, rfl⟩
  unfold Mine_D3D12CreateDevice
  simp only []
  split
  · split
    · split
      · split <;> rfl
      · rfl
    · rfl
  · rfl

/-! ## The two locked steps of `GenericWrapObject` -/

/-- `GenericWrapObject` is its check followed, when the check returns `false`, by its
registration. -/
theorem GenericWrapObject_eq_steps (pWrapper : IUnknownPtr) (objectData : MetadataPtr)
    (heap : Heap) (db : DX12WrappedObjectDatabase) (dev r : Nat) (ty : eObjectType)
    (ci : Nat) :
    GenericWrapObject pWrapper objectData heap db dev r ty ci =
      if (db.WrappedObject heap r).1 = true then
        { result := false, ppReal := (db.WrappedObject heap r).2, heap := heap, db := db }
      else
        GenericWrapObject_register pWrapper objectData heap db dev r ty ci := by
  unfold GenericWrapObject GenericWrapObject_register DX12WrappedObjectDatabase.WrappedObject
  cases h : mapFind db.mRealInstanceToWrapperMetadata r <;> simp [h]

/-- C24 fails on the code.  Two threads run `GenericWrapObject` on the same new real
object `1`.  Both make their locked check before either makes its locked `Add`: both
checks return `false`, so both threads register, both calls return `true`, and the
threads end with different wrapper handles, `10` and `11`; the wrapper map holds both
wrappers and the real map refers to the metadata of the second only. -/
theorem C24_double_registration_race :
    DX12WrappedObjectDatabase.empty.WrappedObject Heap.zero 1 = (false, 1) ∧
    raceFirstRegistered.result = true ∧
    raceSecondRegistered.result = true ∧
    raceFirstRegistered.ppReal = 10 ∧
    raceSecondRegistered.ppReal = 11 ∧
    raceSecondRegistered.db =
      { mWrapperInstanceToWrapperMetadata := [(10, 100), (11, 101)]
        mRealInstanceToWrapperMetadata := [(1, 101)] } := by
  decide

/-! ## Removing the hooks -/

/-- C25 fails on the code.  When `BeginHook` fails, `UnhookInterceptor` returns `true`
(and detaches nothing); when every `Detach` succeeds and `EndHook` fails, it returns
`true` as well. -/
theorem C25_UnhookInterceptor_true_after_failure :
    unhookBeginFails.BeginHook ≠ NO_ERROR ∧
    (UnhookInterceptor unhookBeginFails).bDetachSuccessful = true ∧
    (UnhookInterceptor unhookBeginFails).detachCalls = [] ∧
    unhookEndFails.EndHook ≠ NO_ERROR ∧
    (UnhookInterceptor unhookEndFails).bDetachSuccessful = true := by
  decide

/-! ## The first sample ids -/

theorem afterCalls_of_first (self : DX12Interceptor)
    (h : self.mSampleIndex = FIRST_SAMPLE_ID) (n : Nat) :
    (self.afterCalls n).mSampleIndex = n % SAMPLE_INDEX_RANGE := by
  induction n with
  | zero => simp [DX12Interceptor.afterCalls, h, FIRST_SAMPLE_ID]
  | succ k ih =>
    simp only [DX12Interceptor.afterCalls, DX12Interceptor.GetNextSampleId, ih]
    rw [Nat.add_mod k 1, Nat.add_mod (k % SAMPLE_INDEX_RANGE) 1, Nat.mod_mod]

theorem returnedAfter_of_first (self : DX12Interceptor)
    (h : self.mSampleIndex = FIRST_SAMPLE_ID) (n : Nat) (hn : n + 1 < GPA_UINT32_RANGE) :
    self.returnedAfter n = n + 1 := by
  simp only [DX12Interceptor.returnedAfter, DX12Interceptor.GetNextSampleId,
    afterCalls_of_first self h]
  have h64 : n + 1 < SAMPLE_INDEX_RANGE :=
    lt_trans hn (by unfold GPA_UINT32_RANGE SAMPLE_INDEX_RANGE; norm_num)
  rw [Nat.mod_eq_of_lt (lt_trans (Nat.lt_succ_self n) h64), Nat.mod_eq_of_lt h64,
    Nat.mod_eq_of_lt hn]

/-- C28.  With `FIRST_SAMPLE_ID = 0`, for every `k` with `1 <= k < 2^32`, the `k`-th call
to `GetNextSampleId` after construction returns `k`, and so does the `k`-th call after a
`ResetSampleIdCounter` on any interceptor state; the value `FIRST_SAMPLE_ID` itself is
not handed out by any of these calls. -/
theorem C28_first_sample_ids (self : DX12Interceptor) (k : Nat) (hk : 1 ≤ k)
    (hrange : k < GPA_UINT32_RANGE) :
    FIRST_SAMPLE_ID = 0 ∧
    DX12Interceptor.create.returnedAfter (k - 1) = k ∧
    self.ResetSampleIdCounter.returnedAfter (k - 1) = k ∧
    DX12Interceptor.create.returnedAfter (k - 1) ≠ FIRST_SAMPLE_ID ∧
    self.ResetSampleIdCounter.returnedAfter (k - 1) ≠ FIRST_SAMPLE_ID := by
  have hk1 : k - 1 + 1 = k := Nat.sub_add_cancel hk
  have hcreate := returnedAfter_of_first DX12Interceptor.create rfl (k - 1)
    (by rw [hk1]; exact hrange)
  have hreset := returnedAfter_of_first self.ResetSampleIdCounter rfl (k - 1)
    (by rw [hk1]; exact hrange)
  rw [hk1] at hcreate hreset
  refine ⟨rfl, hcreate, hreset, ?_, ?_⟩
  · rw [hcreate]
    unfold FIRST_SAMPLE_ID
    omega
  · rw [hreset]
    unfold FIRST_SAMPLE_ID
    omega

/-- Witness of C28: the third call returns `3`. -/
theorem C28_first_sample_ids_witness :
    DX12Interceptor.create.returnedAfter 2 = 3 ∧
    (DX12Interceptor.create.afterCalls 5).ResetSampleIdCounter.returnedAfter 2 = 3 :=
  ⟨(C28_first_sample_ids (DX12Interceptor.create.afterCalls 5) 3 (by decide)
      (by decide)).2.1,
   (C28_first_sample_ids (DX12Interceptor.create.afterCalls 5) 3 (by decide)
      (by decide)).2.2.1⟩

/-! ## Wrapping a wrapper handle -/

/-- C29, as amended.  `GenericWrapObject` looks a handle up in the real map only: called
with a handle `w` that is a key of the wrapper map but not of the real map, it treats
`w` as an unregistered real object, returns `true`, hands out the new wrapper, and
registers the new metadata (whose runtime instance is `w`) under `w` in the real map and
under the new wrapper in the wrapper map. -/
theorem C29_wrapper_handle_is_wrapped (pWrapper : IUnknownPtr) (objectData : MetadataPtr)
    (heap : Heap) (db : DX12WrappedObjectDatabase) (dev w : Nat) (ty : eObjectType)
    (ci : Nat)
    (_hwrapper : mapContains db.mWrapperInstanceToWrapperMetadata w = true)
    (hreal : mapContains db.mRealInstanceToWrapperMetadata w = false) :
    (GenericWrapObject pWrapper objectData heap db dev w ty ci).result = true ∧
    (GenericWrapObject pWrapper objectData heap db dev w ty ci).ppReal = pWrapper ∧
    mapFind (GenericWrapObject pWrapper objectData heap db dev w ty
      ci).db.mRealInstanceToWrapperMetadata w = some objectData ∧
    mapFind (GenericWrapObject pWrapper objectData heap db dev w ty
      ci).db.mWrapperInstanceToWrapperMetadata pWrapper = some objectData ∧
    ((GenericWrapObject pWrapper objectData heap db dev w ty ci).heap
      objectData).mRuntimeInstance = w := by
  have hnone := mapFind_eq_none_of_not_contains _ _ hreal
  rw [GenericWrapObject_of_unregistered _ _ _ _ _ _ _ _ hnone]
  simp [mapFind_mapAssign_same, Heap.store_same, IDX12InstanceBase.SetParentDeviceHandle,
    IDX12InstanceBase.create]

/-- Witness of C29: in `oneObject`, the wrapper handle `10` is wrapped as `20`. -/
theorem C29_wrapper_handle_is_wrapped_witness :
    (GenericWrapObject 20 200 oneObject.heap oneObject.db 0 10 0 0).result = true ∧
    (GenericWrapObject 20 200 oneObject.heap oneObject.db 0 10 0 0).ppReal = 20 :=
  ⟨(C29_wrapper_handle_is_wrapped 20 200 oneObject.heap oneObject.db 0 10 0 0
      (by decide) (by decide)).1,
   (C29_wrapper_handle_is_wrapped 20 200 oneObject.heap oneObject.db 0 10 0 0
      (by decide) (by decide)).2.1⟩

/-- C29 as stated fails: in `oneObject` the handle `10` is a key of the wrapper map and
not of the real map, and `GenericWrapObject` on `10` returns `true`, with the new wrapper
`20`, and changes both maps. -/
theorem C29_wrapper_of_a_wrapper :
    mapContains oneObject.db.mWrapperInstanceToWrapperMetadata 10 = true ∧
    mapContains oneObject.db.mRealInstanceToWrapperMetadata 10 = false ∧
    (GenericWrapObject 20 200 oneObject.heap oneObject.db 0 10 0 0).result = true ∧
    (GenericWrapObject 20 200 oneObject.heap oneObject.db 0 10 0 0).db =
      { mWrapperInstanceToWrapperMetadata := [(10, 100), (20, 200)]
        mRealInstanceToWrapperMetadata := [(1, 100), (10, 200)] } ∧
    (GenericWrapObject 20 200 oneObject.heap oneObject.db 0 10 0 0).db ≠ oneObject.db := by
  decide

/-! ## The profiler of a device -/

/-- C27, as amended.  In the build with `USE_GPA_PROFILING == 0`, every successful
`Mine_D3D12CreateDevice` call (frame statistics off, the out pointer holding a non-null
device) associates the real device it yields with the profiler created by this very
call, whether or not the device was already wrapped and already had a profiler; the
associations of all other devices are left as they were.  The state is one in which the
wrapper of an already registered device was constructed from that device. -/
theorem C27_profiler_of_latest_call (st : HookedState) (c : CreateDeviceCall)
    (device : IUnknownPtr)
    (hresult : c.deviceCreateResult = S_OK)
    (hout : c.ppDevice = some device)
    (hdevice : device ≠ NULL)
    (hwrapper : ∀ m, mapFind st.db.mRealInstanceToWrapperMetadata device = some m →
      st.mRealOf (st.heap m).mApplicationHandle = device) :
    mapFind (Mine_D3D12CreateDevice false false st c).state.sDeviceToProfilerMap device
      = some c.pProfiler ∧
    (∀ other, other ≠ device →
      mapFind (Mine_D3D12CreateDevice false false st c).state.sDeviceToProfilerMap other
        = mapFind st.sDeviceToProfilerMap other) := by
  have hreal : (WrapD3D12Device c.pWrapper c.objectData st device
      c.deviceCreateInfo).state.mRealOf
        (WrapD3D12Device c.pWrapper c.objectData st device c.deviceCreateInfo).ppReal
      = device ∧
      (WrapD3D12Device c.pWrapper c.objectData st device
        c.deviceCreateInfo).state.sDeviceToProfilerMap = st.sDeviceToProfilerMap := by
    unfold WrapD3D12Device wrapThroughDatabase
    cases hfound : mapFind st.db.mRealInstanceToWrapperMetadata device with
    | none =>
      simp only [GenericWrapObject_of_unregistered _ _ _ _ _ _ _ _ hfound]
      simp
    | some m =>
      simp only [GenericWrapObject_of_registered _ _ _ _ _ _ _ _ m hfound]
      simp [hwrapper m hfound]
  unfold Mine_D3D12CreateDevice
  simp only [hout, hresult, hdevice, ne_eq, not_false_eq_true, and_self, if_true]
  refine ⟨?_, ?_⟩
  · rw [hreal.1]
    exact mapFind_mapAssign_same _ _ _
  · intro other hother
    rw [hreal.1, mapFind_mapAssign_other _ _ _ _ (Ne.symm hother), hreal.2]

/-- Witness of C27: the first creation of the device `1`, on the state in which no
object has been created. -/
theorem C27_profiler_of_latest_call_witness :
    mapFind (Mine_D3D12CreateDevice false false HookedState.empty
      firstDeviceCall).state.sDeviceToProfilerMap 1 = some 500 :=
  (C27_profiler_of_latest_call HookedState.empty firstDeviceCall 1 rfl rfl (by decide)
    (fun m h => by simp [HookedState.empty, DX12WrappedObjectDatabase.empty, mapFind] at h)).1

/-- C27 as stated fails: the first successful `Mine_D3D12CreateDevice` call associates
the real device `1` with the profiler `500`; a later successful call that yields the same
device, already wrapped as `10`, replaces the association by the profiler `501`. -/
theorem C27_profiler_replaced :
    mapFind (Mine_D3D12CreateDevice false false HookedState.empty
      firstDeviceCall).state.sDeviceToProfilerMap 1 = some 500 ∧
    (Mine_D3D12CreateDevice false false
      (Mine_D3D12CreateDevice false false HookedState.empty firstDeviceCall).state
      secondDeviceCall).ppOut = some 10 ∧
    mapFind (Mine_D3D12CreateDevice false false
      (Mine_D3D12CreateDevice false false HookedState.empty firstDeviceCall).state
      secondDeviceCall).state.sDeviceToProfilerMap 1 = some 501 := by
  decide

/-! ## Concurrent calls of `GetNextSampleId` -/

theorem isInterleaving_length (N M : Nat) (schedule : List Nat)
    (h : isInterleaving N M schedule) : schedule.length = N * M := by
  unfold isInterleaving at h
  rw [h.length_eq]
  simp [List.length_flatMap, Function.comp_def]

theorem isInterleaving_single (M : Nat) : isInterleaving 1 M (List.replicate M 0) := by
  unfold isInterleaving
  rw [show List.range 1 = [0] from rfl]
  simp [List.flatMap]

/-- While the counter stays below 2^32, the ids of a schedule are consecutive. -/
theorem runSchedule_ids (schedule : List Nat) :
    ∀ self : DX12Interceptor, self.mSampleIndex + schedule.length < GPA_UINT32_RANGE →
      (self.runSchedule schedule).map Prod.snd
        = List.range' (self.mSampleIndex + 1) schedule.length := by
  induction schedule with
  | nil =>
    intro self _
    simp [DX12Interceptor.runSchedule]
  | cons t rest ih =>
    intro self h
    simp only [List.length_cons] at h
    have h32 : self.mSampleIndex + 1 < GPA_UINT32_RANGE := by omega
    have h64 : self.mSampleIndex + 1 < SAMPLE_INDEX_RANGE :=
      lt_trans h32 (by unfold GPA_UINT32_RANGE SAMPLE_INDEX_RANGE; norm_num)
    have hnext : (self.GetNextSampleId).2.mSampleIndex = self.mSampleIndex + 1 := by
      simp [DX12Interceptor.GetNextSampleId, Nat.mod_eq_of_lt h64]
    have hid : (self.GetNextSampleId).1 = self.mSampleIndex + 1 := by
      simp [DX12Interceptor.GetNextSampleId, Nat.mod_eq_of_lt h64, Nat.mod_eq_of_lt h32]
    simp only [DX12Interceptor.runSchedule, List.map_cons, List.length_cons, List.range'_succ]
    rw [ih (self.GetNextSampleId).2 (by rw [hnext]; omega), hnext, hid]

/-- The id of the call at position `i` of a schedule, in closed form. -/
theorem runSchedule_getElem (schedule : List Nat) :
    ∀ (self : DX12Interceptor) (i : Nat), i < schedule.length →
      ((self.runSchedule schedule).map Prod.snd)[i]?
        = some ((self.mSampleIndex + i + 1) % SAMPLE_INDEX_RANGE % GPA_UINT32_RANGE) := by
  induction schedule with
  | nil =>
    intro self i h
    simp at h
  | cons t rest ih =>
    intro self i h
    cases i with
    | zero => simp [DX12Interceptor.runSchedule, DX12Interceptor.GetNextSampleId]
    | succ j =>
      simp only [List.length_cons, Nat.add_lt_add_iff_right] at h
      simp only [DX12Interceptor.runSchedule, List.map_cons, List.getElem?_cons_succ]
      rw [ih (self.GetNextSampleId).2 j h]
      simp only [DX12Interceptor.GetNextSampleId]
      rw [Nat.add_assoc ((self.mSampleIndex + 1) % SAMPLE_INDEX_RANGE) j 1, Nat.mod_add_mod]
      congr 3
      omega

/-- C23, as amended.  For any interleaving of `N` threads each calling `GetNextSampleId`
`M` times on a new interceptor, with `N * M < 2^32` (the calls take effect one at a time,
under the counter lock): the returned values are exactly `N * M` distinct elements, and
whenever a call takes effect before another, its value is less than the value of the
other. -/
theorem C23_concurrent_sample_ids (N M : Nat) (schedule : List Nat)
    (hinterleaving : isInterleaving N M schedule)
    (hrange : N * M < GPA_UINT32_RANGE) :
    ((DX12Interceptor.create.runSchedule schedule).map Prod.snd).length = N * M ∧
    ((DX12Interceptor.create.runSchedule schedule).map Prod.snd).Nodup ∧
    ((DX12Interceptor.create.runSchedule schedule).map Prod.snd).Pairwise (· < ·) := by
  have hlen := isInterleaving_length N M schedule hinterleaving
  have hids := runSchedule_ids schedule DX12Interceptor.create
    (by simp only [DX12Interceptor.create, FIRST_SAMPLE_ID]; omega)
  rw [hids]
  refine ⟨?_, List.nodup_range' _ _, List.pairwise_lt_range' _ _⟩
  simp [hlen]

/-- Witness of C23: two threads that call twice each, interleaved as `0, 1, 1, 0`. -/
theorem C23_concurrent_sample_ids_witness :
    ((DX12Interceptor.create.runSchedule [0, 1, 1, 0]).map Prod.snd).length = 2 * 2 ∧
    ((DX12Interceptor.create.runSchedule [0, 1, 1, 0]).map Prod.snd).Nodup ∧
    ((DX12Interceptor.create.runSchedule [0, 1, 1, 0]).map Prod.snd).Pairwise (· < ·) :=
  C23_concurrent_sample_ids 2 2 [0, 1, 1, 0] (by unfold isInterleaving; decide) (by decide)

/-- C23 as stated fails: when a single thread calls `GetNextSampleId` 2^32 times, its
first call returns `1` and its last call, which begins after the first has returned,
returns `0`. -/
theorem C23_sample_id_wraps_in_schedule :
    isInterleaving 1 4294967296 (List.replicate 4294967296 0) ∧
    ((DX12Interceptor.create.runSchedule (List.replicate 4294967296 0)).map Prod.snd)[0]?
      = some 1 ∧
    ((DX12Interceptor.create.runSchedule
      (List.replicate 4294967296 0)).map Prod.snd)[4294967295]? = some 0 := by
  refine ⟨isInterleaving_single 4294967296, ?_, ?_⟩
  · rw [runSchedule_getElem _ _ 0 (by rw [List.length_replicate]; decide)]
    decide
  · rw [runSchedule_getElem _ _ 4294967295 (by rw [List.length_replicate]; decide)]
    decide

/-! ## The per-command-list sample count -/

theorem one_mod_GPA_UINT32_RANGE : 1 % GPA_UINT32_RANGE = 1 := by
  unfold GPA_UINT32_RANGE
  norm_num

theorem PreCall_sample_count (s : Server) (threadId : Nat) (w : IUnknownPtr) (real : Nat)
    (selectStatus beginStatus : GPA_Status) :
    mapFind (PreCall_sample s threadId w real selectStatus
        beginStatus).interceptor.mSamplesPerCommandList w
      = some (((mapFind s.interceptor.mSamplesPerCommandList w).getD 0 + 1)
          % GPA_UINT32_RANGE) ∧
    (∀ other, other ≠ w →
      mapFind (PreCall_sample s threadId w real selectStatus
          beginStatus).interceptor.mSamplesPerCommandList other
        = mapFind s.interceptor.mSamplesPerCommandList other) := by
  unfold PreCall_sample
  simp only []
  cases hfound : mapFind s.interceptor.mSamplesPerCommandList w with
  | none =>
    refine ⟨?_, ?_⟩
    · split <;>
        simp [DX12Interceptor.SwitchGPAContext, DX12Interceptor.SetNextSampleId,
          DX12Interceptor.GetNextSampleId, mapFind_mapAssign_same, apply_ite,
          one_mod_GPA_UINT32_RANGE]
    · intro other hother
      split <;>
        simp [DX12Interceptor.SwitchGPAContext, DX12Interceptor.SetNextSampleId,
          DX12Interceptor.GetNextSampleId, mapFind_mapAssign_other _ _ _ _ (Ne.symm hother),
          apply_ite]
  | some count =>
    refine ⟨?_, ?_⟩
    · split <;>
        simp [DX12Interceptor.SwitchGPAContext, DX12Interceptor.SetNextSampleId,
          DX12Interceptor.GetNextSampleId, mapFind_mapModify_same, hfound, apply_ite]
    · intro other hother
      split <;>
        simp [DX12Interceptor.SwitchGPAContext, DX12Interceptor.SetNextSampleId,
          DX12Interceptor.GetNextSampleId, mapFind_mapModify_other _ _ _ _ (Ne.symm hother),
          apply_ite]

theorem PostCall_sample_kept (s : Server) (threadId pNewEntry : Nat)
    (endSampleStatus : GPA_Status) :
    (PostCall_sample s threadId pNewEntry endSampleStatus).interceptor.mSamplesPerCommandList
      = s.interceptor.mSamplesPerCommandList ∧
    (PostCall_sample s threadId pNewEntry endSampleStatus).interceptor.mbProfilerEnabled
      = s.interceptor.mbProfilerEnabled ∧
    (PostCall_sample s threadId pNewEntry
      endSampleStatus).traceAnalyzerLayer.mProfiledFunctions
      = s.traceAnalyzerLayer.mProfiledFunctions := by
  unfold PostCall_sample
  split
  · split
    · split <;> simp [DX12TraceAnalyzerLayer.assignSampleId,
        DX12TraceAnalyzerLayer.StoreProfilerResult]
    · simp
  · simp

/-- `PostCall` leaves the per-command-list counts, the collect-timing flag and the
allow-list as they are. -/
theorem PostCall_kept (s : Server) (threadId : Nat) (w : IUnknownPtr) (f : FuncId)
    (args : String) (ret : Int) (endSampleStatus : GPA_Status) :
    (PostCall s threadId w f args ret endSampleStatus).interceptor.mSamplesPerCommandList
      = s.interceptor.mSamplesPerCommandList ∧
    (PostCall s threadId w f args ret endSampleStatus).interceptor.mbProfilerEnabled
      = s.interceptor.mbProfilerEnabled ∧
    (PostCall s threadId w f args ret endSampleStatus).traceAnalyzerLayer.mProfiledFunctions
      = s.traceAnalyzerLayer.mProfiledFunctions := by
  unfold PostCall
  simp only []
  split
  · have hkept := PostCall_sample_kept
      { s with traceAnalyzerLayer := (s.traceAnalyzerLayer.LogAPICall w f args ret).2 }
      threadId (s.traceAnalyzerLayer.LogAPICall w f args ret).1 endSampleStatus
    refine ⟨?_, ?_, ?_⟩
    · simpa [DX12Interceptor.UnlockGPA] using hkept.1
    · simpa [DX12Interceptor.UnlockGPA] using hkept.2.1
    · simpa [DX12TraceAnalyzerLayer.LogAPICall] using hkept.2.2
  · simp [DX12TraceAnalyzerLayer.LogAPICall]

/-- What a profiled pair on the command list `c` does to the per-command-list counts, and
that it leaves the collect-timing flag and the allow-list as they are. -/
theorem runPair_count (s : Server) (p : CallPair) (c : IUnknownPtr)
    (hcollect : s.interceptor.mbProfilerEnabled = true)
    (hprofile : p.inFunctionId ∈ s.traceAnalyzerLayer.mProfiledFunctions)
    (hc : c ≠ NULL) (hon : p.inWrappedInterface = c) :
    mapFind (runPair s p).interceptor.mSamplesPerCommandList c
      = some (((mapFind s.interceptor.mSamplesPerCommandList c).getD 0 + 1)
          % GPA_UINT32_RANGE) ∧
    (∀ other, other ≠ c →
      mapFind (runPair s p).interceptor.mSamplesPerCommandList other
        = mapFind s.interceptor.mSamplesPerCommandList other) ∧
    (runPair s p).interceptor.mbProfilerEnabled = true ∧
    (runPair s p).traceAnalyzerLayer.mProfiledFunctions
      = s.traceAnalyzerLayer.mProfiledFunctions := by
  have hpre : PreCall s p.threadId c p.inFunctionId p.mRealGraphicsCommandList
      p.selectStatus p.beginStatus =
      { PreCall_sample { s with interceptor := s.interceptor.LockGPA } p.threadId c
          p.mRealGraphicsCommandList p.selectStatus p.beginStatus with
        traceAnalyzerLayer := (PreCall_sample { s with interceptor := s.interceptor.LockGPA }
          p.threadId c p.mRealGraphicsCommandList p.selectStatus
          p.beginStatus).traceAnalyzerLayer.BeforeAPICall } := by
    unfold PreCall
    simp [DX12Interceptor.ShouldCollectGPUTime, DX12TraceAnalyzerLayer.ShouldProfileFunction,
      hcollect, hprofile, hc]
  have hcount := PreCall_sample_count { s with interceptor := s.interceptor.LockGPA }
    p.threadId c p.mRealGraphicsCommandList p.selectStatus p.beginStatus
  have hcfg := PreCall_sample_config { s with interceptor := s.interceptor.LockGPA }
    p.threadId c p.mRealGraphicsCommandList p.selectStatus p.beginStatus
  unfold runPair
  rw [hon]
  obtain ⟨hk1, hk2, hk3⟩ := PostCall_kept
    (PreCall s p.threadId c p.inFunctionId p.mRealGraphicsCommandList p.selectStatus
      p.beginStatus) p.threadId c p.inFunctionId p.inArgumentString p.inReturnValue
    p.endSampleStatus
  rw [hk1, hk2, hk3, hpre]
  refine ⟨?_, ?_, ?_, ?_⟩
  · simpa [DX12Interceptor.LockGPA] using hcount.1
  · intro other hother
    simpa [DX12Interceptor.LockGPA] using hcount.2 other hother
  · simpa [DX12Interceptor.LockGPA, hcollect] using hcfg.1
  · simpa [DX12TraceAnalyzerLayer.BeforeAPICall] using hcfg.2.1

/-- The count of the command list `c` after a non-empty sequence of profiled pairs on
`c`, in closed form, and the counts of the other command lists. -/
theorem runEvents_count (c : IUnknownPtr) (allowList : List FuncId) (hc : c ≠ NULL)
    (pairs : List CallPair) :
    ∀ s : Server, s.interceptor.mbProfilerEnabled = true →
      s.traceAnalyzerLayer.mProfiledFunctions = allowList →
      (∀ p ∈ pairs, p.inWrappedInterface = c ∧ p.inFunctionId ∈ allowList) →
      (pairs ≠ [] →
        mapFind (runEvents s (pairs.map FrameEvent.call)).interceptor.mSamplesPerCommandList c
          = some (((mapFind s.interceptor.mSamplesPerCommandList c).getD 0 + pairs.length)
              % GPA_UINT32_RANGE)) ∧
      (∀ other, other ≠ c →
        mapFind (runEvents s
            (pairs.map FrameEvent.call)).interceptor.mSamplesPerCommandList other
          = mapFind s.interceptor.mSamplesPerCommandList other) := by
  induction pairs with
  | nil =>
    intro s _ _ _
    exact ⟨fun h => absurd rfl h, fun _ _ => rfl⟩
  | cons p rest ih =>
    intro s hcollect hallow hpairs
    obtain ⟨hon, hprofile⟩ := hpairs p (List.mem_cons_self _ _)
    obtain ⟨hcount, hother, hcollectNext, hallowNext⟩ :=
      runPair_count s p c hcollect (hallow ▸ hprofile) hc hon
    obtain ⟨ihcount, ihother⟩ := ih (runPair s p) hcollectNext (hallowNext.trans hallow)
      (fun q hq => hpairs q (List.mem_cons_of_mem _ hq))
    have hrun : runEvents s ((p :: rest).map FrameEvent.call)
        = runEvents (runPair s p) (rest.map FrameEvent.call) := rfl
    rw [hrun]
    refine ⟨?_, ?_⟩
    · intro _
      by_cases hrest : rest = []
      · subst hrest
        simpa [runEvents] using hcount
      · rw [ihcount hrest, hcount]
        simp only [Option.getD_some, List.length_cons, Nat.mod_add_mod]
        congr 2
        omega
    · intro other hne
      rw [ihother other hne, hother other hne]

/-- C26, as amended.  In the `USE_GPA_PROFILING` build, for every command list `c` and
every `k` with `1 <= k < 2^32`: after `k` profiled calls (`PreCall` with its `PostCall`)
on `c`, made from a state in which `c` has no count yet (after construction or
`ResetSampleIdCounter`) while GPU time is collected, `mSamplesPerCommandList[c]` equals
`k`, and the counts of all other command lists are as before those calls. -/
theorem C26_samples_per_command_list (s : Server) (c : IUnknownPtr) (pairs : List CallPair)
    (hcollect : s.interceptor.ShouldCollectGPUTime = true)
    (hc : c ≠ NULL)
    (hnew : mapFind s.interceptor.mSamplesPerCommandList c = none)
    (hpairs : ∀ p ∈ pairs, p.inWrappedInterface = c ∧
      s.traceAnalyzerLayer.ShouldProfileFunction p.inFunctionId = true)
    (hk : 1 ≤ pairs.length) (hrange : pairs.length < GPA_UINT32_RANGE) :
    mapFind (runEvents s (pairs.map FrameEvent.call)).interceptor.mSamplesPerCommandList c
      = some pairs.length ∧
    (∀ other, other ≠ c →
      mapFind (runEvents s
          (pairs.map FrameEvent.call)).interceptor.mSamplesPerCommandList other
        = mapFind s.interceptor.mSamplesPerCommandList other) := by
  have hne : pairs ≠ [] := by
    intro h
    rw [h] at hk
    exact absurd hk (by decide)
  obtain ⟨hcount, hother⟩ := runEvents_count c s.traceAnalyzerLayer.mProfiledFunctions hc
    pairs s hcollect rfl
    (fun p hp => ⟨(hpairs p hp).1, by
      have := (hpairs p hp).2
      simpa [DX12TraceAnalyzerLayer.ShouldProfileFunction] using this⟩)
  refine ⟨?_, hother⟩
  rw [hcount hne, hnew]
  simp [Nat.mod_eq_of_lt hrange]

/-- Witness of C26: two profiled calls on the command list `50`. -/
theorem C26_samples_per_command_list_witness :
    mapFind (runEvents profilingServer
      ([goodCall, goodCall].map FrameEvent.call)).interceptor.mSamplesPerCommandList 50
      = some 2 :=
  (C26_samples_per_command_list profilingServer 50 [goodCall, goodCall] (by decide)
    (by decide) (by decide) (by decide) (by decide) (by decide)).1

/-- C26 as stated fails: after 2^32 profiled calls on the command list `50` since
construction, `mSamplesPerCommandList[50]` is `0`, not 2^32. -/
theorem C26_sample_count_wraps :
    mapFind (runEvents profilingServer
      ((List.replicate 4294967296 goodCall).map
        FrameEvent.call)).interceptor.mSamplesPerCommandList 50 = some 0 := by
  have hcount := (runEvents_count 50 [7] (by decide) (List.replicate 4294967296 goodCall)
    profilingServer rfl rfl
    (fun p hp => by rw [List.eq_of_mem_replicate hp]; decide)).1
    (by
      intro h
      have hlen := congrArg List.length h
      rw [List.length_replicate] at hlen
      exact absurd hlen (by decide))
  rw [hcount, List.length_replicate]
  decide

/-! ## `MdoStats`: the running total -/

theorem trackedBytes_mapAssign_new (m : List (Nat × Nat)) (p n : Nat)
    (h : mapFind m p = none) : trackedBytes (mapAssign m p n) = trackedBytes m + n := by
  induction m with
  | nil => simp [mapAssign, trackedBytes]
  | cons e rest ih =>
    obtain ⟨k, v⟩ := e
    by_cases hk : k = p
    · simp [mapFind, hk] at h
    · simp only [mapFind, hk, if_false] at h
      have hrest := ih h
      simp only [trackedBytes, mapAssign, hk, if_false, List.map_cons, List.sum_cons] at hrest ⊢
      omega

theorem trackedBytes_mapErase (m : List (Nat × Nat)) (p f : Nat)
    (h : mapFind m p = some f) : trackedBytes (mapErase m p) + f = trackedBytes m := by
  induction m with
  | nil => simp [mapFind] at h
  | cons e rest ih =>
    obtain ⟨k, v⟩ := e
    by_cases hk : k = p
    · simp only [mapFind, hk, if_true, Option.some.injEq] at h
      simp only [trackedBytes, mapErase, hk, if_true, List.map_cons, List.sum_cons, h]
      omega
    · simp only [mapFind, hk, if_false] at h
      have hrest := ih h
      simp only [trackedBytes, mapErase, hk, if_false, List.map_cons, List.sum_cons] at hrest ⊢
      omega

/-- Unsigned subtraction of a recorded size from the total. -/
theorem sub_mod_range (range rest f : Nat) (hrange : 0 < range) :
    ((rest + f) % range + (range - f % range)) % range = rest % range := by
  have hlt : f % range < range := Nat.mod_lt f hrange
  have hsplit : f + (range - f % range) = range * (f / range + 1) := by
    have hdiv := Nat.div_add_mod f range
    calc f + (range - f % range)
        = range * (f / range) + f % range + (range - f % range) := by rw [hdiv]
      _ = range * (f / range) + (f % range + (range - f % range)) := by rw [Nat.add_assoc]
      _ = range * (f / range) + range := by rw [Nat.add_sub_cancel' (Nat.le_of_lt hlt)]
      _ = range * (f / range + 1) := by rw [Nat.mul_add, Nat.mul_one]
  rw [Nat.mod_add_mod, Nat.add_assoc, hsplit, Nat.add_mul_mod_self_left]

theorem MdoStats_step_total (range : Nat) (hrange : 0 < range) (self : MdoStats)
    (call : MdoCall)
    (hinv : self.m_totalConsumption = trackedBytes self.m_allocSizes % range)
    (huntracked : MdoStats.allocatesUntracked range self [call] = true) :
    (self.step range call).m_totalConsumption
      = trackedBytes (self.step range call).m_allocSizes % range ∧
    (self.step range call).m_mdoConfig = self.m_mdoConfig := by
  cases call with
  | TrackAlloc numBytes pMem =>
    simp only [MdoStats.allocatesUntracked, Bool.and_true, Bool.not_eq_true'] at huntracked
    have hnone := mapFind_eq_none_of_not_contains _ _ huntracked
    simp only [MdoStats.step, MdoStats.TrackAlloc]
    by_cases hflag : self.m_mdoConfig.dbgMdoSpaceUsage = true
    · rw [if_pos hflag]
      refine ⟨?_, rfl⟩
      simp only []
      rw [trackedBytes_mapAssign_new _ _ _ hnone, hinv, Nat.mod_add_mod]
    · rw [if_neg hflag]
      exact ⟨hinv, rfl⟩
  | TrackFree pMem =>
    simp only [MdoStats.step, MdoStats.TrackFree]
    by_cases hflag : self.m_mdoConfig.dbgMdoSpaceUsage = true
    · rw [if_pos hflag]
      cases hfound : mapFind self.m_allocSizes pMem with
      | none => exact ⟨hinv, rfl⟩
      | some freedBytes =>
        refine ⟨?_, rfl⟩
        simp only []
        rw [hinv, ← trackedBytes_mapErase _ _ _ hfound]
        exact sub_mod_range range _ freedBytes hrange
    · rw [if_neg hflag]
      exact ⟨hinv, rfl⟩

theorem MdoStats_run_total (range : Nat) (hrange : 0 < range) (calls : List MdoCall) :
    ∀ self : MdoStats,
      self.m_totalConsumption = trackedBytes self.m_allocSizes % range →
      MdoStats.allocatesUntracked range self calls = true →
      (self.run range calls).m_totalConsumption
        = trackedBytes (self.run range calls).m_allocSizes % range := by
  induction calls with
  | nil =>
    intro self hinv _
    exact hinv
  | cons call rest ih =>
    intro self hinv huntracked
    have hfirst : MdoStats.allocatesUntracked range self [call] = true ∧
        MdoStats.allocatesUntracked range (self.step range call) rest = true := by
      cases call with
      | TrackAlloc numBytes pMem =>
        simp only [MdoStats.allocatesUntracked, Bool.and_eq_true, Bool.and_true] at huntracked ⊢
        exact ⟨huntracked.1, huntracked.2⟩
      | TrackFree pMem =>
        simp only [MdoStats.allocatesUntracked] at huntracked ⊢
        exact ⟨trivial, huntracked⟩
    have hstep := MdoStats_step_total range hrange self call hinv hfirst.1
    exact ih (self.step range call) hstep.1 hfirst.2

/-- C30, as amended.  With `dbgMdoSpaceUsage` enabled, after every sequence of
`TrackAlloc` and `TrackFree` calls on a new `MdoStats` in which `TrackAlloc` is never
called on a pointer that is tracked at that moment, `m_totalConsumption` equals the sum of
the sizes recorded in `m_allocSizes` for the tracked pointers, as a value of its unsigned
type (modulo its range); `TrackFree` of a pointer that is not tracked changes neither the
total nor the map; and with `dbgMdoSpaceUsage` disabled neither function changes any
state. -/
theorem C30_running_total (range : Nat) (hrange : 0 < range) (mdoConfig : MdoConfig)
    (calls : List MdoCall)
    (huntracked :
      MdoStats.allocatesUntracked range (MdoStats.create mdoConfig) calls = true) :
    ((MdoStats.create mdoConfig).run range calls).m_totalConsumption
      = trackedBytes ((MdoStats.create mdoConfig).run range calls).m_allocSizes % range ∧
    (∀ (self : MdoStats) (pMem : Nat), mapContains self.m_allocSizes pMem = false →
      self.TrackFree range pMem = self) ∧
    (∀ (self : MdoStats) (numBytes pMem : Nat),
      self.m_mdoConfig.dbgMdoSpaceUsage = false →
      self.TrackAlloc range numBytes pMem = self ∧ self.TrackFree range pMem = self) := by
  refine ⟨?_, ?_, ?_⟩
  · apply MdoStats_run_total range hrange calls (MdoStats.create mdoConfig) _ huntracked
    simp [MdoStats.create, trackedBytes]
  · intro self pMem hfree
    have hnone := mapFind_eq_none_of_not_contains _ _ hfree
    unfold MdoStats.TrackFree
    simp [hnone]
  · intro self numBytes pMem hoff
    unfold MdoStats.TrackAlloc MdoStats.TrackFree
    simp [hoff]

/-- Witness of C30: two allocations, the first freed, then a free of an untracked
pointer, with a 64-bit total. -/
theorem C30_running_total_witness :
    (spaceTracker.run 18446744073709551616
      [MdoCall.TrackAlloc 10 1, MdoCall.TrackAlloc 20 2, MdoCall.TrackFree 1,
        MdoCall.TrackFree 3]).m_totalConsumption
      = trackedBytes (spaceTracker.run 18446744073709551616
          [MdoCall.TrackAlloc 10 1, MdoCall.TrackAlloc 20 2, MdoCall.TrackFree 1,
            MdoCall.TrackFree 3]).m_allocSizes % 18446744073709551616 :=
  (C30_running_total 18446744073709551616 (by decide)
    { dbgMdoSpaceUsage := true, dbgMdoTimeUsage := false }
    [MdoCall.TrackAlloc 10 1, MdoCall.TrackAlloc 20 2, MdoCall.TrackFree 1,
      MdoCall.TrackFree 3] (by decide)).1

/-- C30 as stated fails: after `TrackAlloc(10, p)` and `TrackAlloc(20, p)` on the same
pointer `p = 1`, the map records the size `20` for `p` and the total is `30`, for a
32-bit and for a 64-bit total alike. -/
theorem C30_total_after_repeated_alloc :
    (spaceTracker.run 18446744073709551616
      [MdoCall.TrackAlloc 10 1, MdoCall.TrackAlloc 20 1]).m_allocSizes = [(1, 20)] ∧
    (spaceTracker.run 18446744073709551616
      [MdoCall.TrackAlloc 10 1, MdoCall.TrackAlloc 20 1]).m_totalConsumption = 30 ∧
    (spaceTracker.run 4294967296
      [MdoCall.TrackAlloc 10 1, MdoCall.TrackAlloc 20 1]).m_totalConsumption = 30 ∧
    trackedBytes (spaceTracker.run 18446744073709551616
      [MdoCall.TrackAlloc 10 1, MdoCall.TrackAlloc 20 1]).m_allocSizes = 20 := by
  decide

end GPUPerfStudio
